import Mathlib

/-!
# GTK GLArea display backend (`ui/gtk-gl-area.c`)

A shallow embedding of the scanout/present pipeline of `ui/gtk-gl-area.c`:
the letterbox geometry of `gd_gl_area_size_update`, the mode controller
`gtk_gl_area_set_scanout_mode`, and the display-change-listener callbacks
(`draw`, `update`, `refresh`, `switch`, `scanout_texture`, `scanout_disable`,
`scanout_flush`, `scanout_dmabuf`).

* C `double` values are modelled by `Dbl`, a sign, a 53-bit significand and
  a binary exponent; every arithmetic operation rounds its exact result with
  `roundFrac`, IEEE-754 binary64 round-to-nearest-even.  The quantities
  handled by the geometry code are quotients and products of 32-bit
  integers, so neither overflow to infinity nor subnormal numbers occur; a
  division by zero is reported as `none`.
* C `int` values are modelled by `Int`; a conversion or subtraction whose
  result leaves the range of `int` is undefined behaviour and reported as
  `none`.
* Calls into the GL / toolkit / console layers are recorded as a list of
  `Event`s returned next to the new state.
-/

namespace GtkGlArea

/-! ## IEEE-754 binary64 rounding -/

/-- A finite binary floating-point number `(-1)^neg * m * 2^e`.  Numbers
produced by `roundFrac` are normalised: `m = 0` or `2^52 ≤ m < 2^53`. -/
structure Dbl where
  neg : Bool
  m : Nat
  e : Int
deriving DecidableEq, Repr

/-- The double `0.0`. -/
def Dbl.zero : Dbl := ⟨false, 0, 0⟩

/-- Signed significand. -/
def Dbl.num (x : Dbl) : Int := if x.neg then -(x.m : Int) else x.m

/-- The rational number denoted by a double. -/
def Dbl.val (x : Dbl) : ℚ := (x.num : ℚ) * (2 : ℚ) ^ x.e

/-- Nearest natural number to `n / d`, ties to the even neighbour. -/
def roundHalfEven (n d : Nat) : Nat :=
  let q := n / d
  let r := n % d
  if 2 * r < d then q else if d < 2 * r then q + 1 else if q % 2 = 0 then q else q + 1

/-- Worker of `ilog2`, recursing on a fuel argument. -/
def ilog2Aux : Nat → Nat → Nat
  | 0, _ => 0
  | fuel + 1, n => if n < 2 then 0 else ilog2Aux fuel (n / 2) + 1

/-- Position of the leading one bit: `2 ^ ilog2 n ≤ n < 2 ^ (ilog2 n + 1)`. -/
def ilog2 (n : Nat) : Nat := ilog2Aux n n

/-- Binary scaling `(up, down)` of the positive fraction `n / d`: the pair of
shifts for which `2^52 ≤ (n * 2^up) / (d * 2^down) < 2^53`, so that the
scaled fraction rounds to a 53-bit significand. -/
def binade (n d : Nat) : Nat × Nat :=
  let a := ilog2 n
  let b := ilog2 d
  let u := 53 + b - a
  let v := a - (53 + b)
  if d * 2 ^ v * 2 ^ 53 ≤ n * 2 ^ u then
    (if u = 0 then (0, v + 1) else (u - 1, v))
  else (u, v)

/-- The binary64 number nearest to `(-1)^neg * n / d` (round to nearest, ties
to even), for `d > 0`. -/
def roundFrac (neg : Bool) (n d : Nat) : Dbl :=
  if n = 0 then Dbl.zero
  else
    let ud := binade n d
    let m := roundHalfEven (n * 2 ^ ud.1) (d * 2 ^ ud.2)
    if m = 2 ^ 53 then ⟨neg, 2 ^ 52, (ud.2 : Int) - ud.1 + 1⟩ else ⟨neg, m, (ud.2 : Int) - ud.1⟩

/-- The double quotient `(double)a / b` of two `int`s.  The conversions of
32-bit integers to double are exact, so the result is the rounded exact
quotient. -/
def Dbl.divInts (a b : Int) : Dbl :=
  roundFrac (decide (a < 0) != decide (b < 0)) a.natAbs b.natAbs

/-- The double product `g * x` of a stored content dimension (a non-negative
integer below `2^32`, converted exactly) and a double. -/
def Dbl.mulNat (g : Nat) (x : Dbl) : Dbl :=
  roundFrac x.neg (g * x.m * 2 ^ x.e.toNat) (2 ^ (-x.e).toNat)

/-- The double quotient `x / k` of a double and an `int` (converted exactly). -/
def Dbl.divInt (x : Dbl) (k : Int) : Dbl :=
  roundFrac (x.neg != decide (k < 0)) (x.m * 2 ^ x.e.toNat) (k.natAbs * 2 ^ (-x.e).toNat)

/-- The comparison `a < b` of two doubles. -/
def Dbl.lt (a b : Dbl) : Bool :=
  decide (a.num * 2 ^ (a.e - b.e).toNat < b.num * 2 ^ (b.e - a.e).toNat)

/-- The `MIN(a, b)` macro: `((a) < (b) ? (a) : (b))`. -/
def MIN (a b : Dbl) : Dbl := if a.lt b then a else b

/-- Conversion of a double to `int`: truncation toward zero, undefined when
the truncated value is not representable in a 32-bit `int`. -/
def Dbl.toInt (x : Dbl) : Option Int :=
  let z := if 0 ≤ x.e then x.num * 2 ^ x.e.toNat else Int.tdiv x.num (2 ^ (-x.e).toNat)
  if -2147483648 ≤ z ∧ z ≤ 2147483647 then some z else none

/-- Result of an `int` subtraction, undefined on signed overflow. -/
def subInt (a b : Int) : Option Int :=
  if -2147483648 ≤ a - b ∧ a - b ≤ 2147483647 then some (a - b) else none

/-! ## Data model -/

/-- The guest's CPU pixel buffer (`DisplaySurface`): the identity of its pixel
image, the values returned by `surface_width` / `surface_height`, and the GL
texture name bound to it (`0` when it has none). -/
structure DisplaySurface where
  image : Nat
  width : Int
  height : Int
  texture : Nat
deriving DecidableEq, Repr

/-- The framebuffer record `egl_fb`; `framebuffer = 0` means empty. -/
structure egl_fb where
  width : Nat
  height : Nat
  texture : Nat
  framebuffer : Nat
  delete_texture : Bool
deriving DecidableEq, Repr

/-- Calls that leave the module, in program order. -/
inductive Event where
  | make_current
  | init_shader
  | fb_create (name : Nat)
  | fb_destroy (name : Nat)
  | tex_create (name : Nat)
  | tex_destroy (name : Nat)
  | tex_update (x y w h : Int)
  | bind_read_framebuffer (name : Nat)
  | viewport (x y w h : Int)
  | blit (sx0 sy0 sx1 sy1 dx0 dy0 dx1 dy1 : Int)
  | setup_viewport (ww wh : Int)
  | render_texture (name : Nat)
  | gl_flush
  | gl_flushed
  | hw_update
  | queue_render
  | update_windowsize
  | dmabuf_import
deriving DecidableEq, Repr

/-- The per-output state `vc->gfx` used by this file, the file's static
geometry variables `ww, wh, fbw, fbh, off_x, off_y`, and the number of GL
texture / framebuffer names handed out so far.

`gls` says whether the shader state exists, `ds` is the current guest surface
(`none` for a null pointer), `surface` says whether the distinct member
`vc->gfx.surface` is non-null.  The members are declared in `ui/gtk.h`, which
is not part of this file: `x, y, w, h` hold the values passed to
`gd_gl_area_scanout_texture` and `glupdates` is a count. -/
structure State where
  scanout_mode : Bool
  guest_fb : egl_fb
  gls : Bool
  ds : Option DisplaySurface
  surface : Bool
  x : Nat
  y : Nat
  w : Nat
  h : Nat
  y0_top : Bool
  glupdates : Nat
  scale_x : Dbl
  scale_y : Dbl
  ww : Int
  wh : Int
  fbw : Int
  fbh : Int
  off_x : Int
  off_y : Int
  tex_names : Nat
  fb_names : Nat
deriving DecidableEq

/-- State after `gtk_gl_area_init` on a zero-initialised console: Surface
mode, no renderer, no surface, nothing pending, window size `1 x 1`. -/
def init : State :=
  { scanout_mode := false
    guest_fb := ⟨0, 0, 0, 0, false⟩
    gls := false, ds := none, surface := false
    x := 0, y := 0, w := 0, h := 0, y0_top := false
    glupdates := 0, scale_x := Dbl.zero, scale_y := Dbl.zero
    ww := 1, wh := 1, fbw := 0, fbh := 0, off_x := 0, off_y := 0
    tex_names := 0, fb_names := 0 }

/-! ## Geometry calculator -/

/-- The function `gd_gl_area_size_update(vc, w, h)`; `wsf` is the value returned by
`gtk_widget_get_scale_factor`.  The result is `none` where the C code has no
defined finite result: a null guest surface, a division by zero, a double
outside the range of `int`, or a signed overflow. -/
def gd_gl_area_size_update (s : State) (w h wsf : Int) : Option State :=
  match s.ds with
  | none => none
  | some d =>
    if d.width = 0 ∨ d.height = 0 ∨ wsf = 0 then none
    else
      let scale := MIN (Dbl.divInts w d.width) (Dbl.divInts h d.height)
      (Dbl.mulNat s.w scale).toInt.bind fun fbw =>
      (Dbl.mulNat s.h scale).toInt.bind fun fbh =>
      if fbw < w then
        (subInt w fbw).bind fun dx =>
        some { s with ww := w, wh := h, scale_x := scale.divInt wsf, scale_y := scale.divInt wsf,
                      fbw := fbw, fbh := fbh, off_x := Int.tdiv dx 2, off_y := 0 }
      else
        (subInt h fbh).bind fun dy =>
        some { s with ww := w, wh := h, scale_x := scale.divInt wsf, scale_y := scale.divInt wsf,
                      fbw := fbw, fbh := fbh, off_x := 0, off_y := Int.tdiv dy 2 }

/-! ## Helpers from other files -/

/-- Conversion of a `uint32_t` value to `int` (two's complement). -/
def int_of_u32 (n : Nat) : Int := if n < 2147483648 then n else (n : Int) - 4294967296

/-- Modelled from the spec: `egl_fb_destroy` of `ui/egl-helpers.c`, which is
not part of this file.  "Destroy `guestFramebuffer`": the framebuffer object
is released and the record left empty; destroying an empty record does
nothing (no double free). -/
def egl_fb_destroy (fb : egl_fb) : egl_fb × List Event :=
  if fb.framebuffer = 0 then (fb, [])
  else (⟨0, 0, 0, 0, false⟩, [Event.fb_destroy fb.framebuffer])

/-- Modelled from the spec: `egl_fb_setup_for_tex` of `ui/egl-helpers.c`,
which is not part of this file.  "Construct `guestFramebuffer` wrapping
the imported texture": the record takes the given size and texture, and a
framebuffer object is allocated only when the record has none (no duplicate
framebuffer allocation).  `names` counts the framebuffer names handed out
so far; the result carries the new count. -/
def egl_fb_setup_for_tex (names : Nat) (fb : egl_fb) (width height texture : Nat)
    (del : Bool) : egl_fb × Nat × List Event :=
  if fb.framebuffer = 0 then
    (⟨width, height, texture, names + 1, del⟩, names + 1, [Event.fb_create (names + 1)])
  else (⟨width, height, texture, fb.framebuffer, del⟩, names, [])

/-- Modelled from the spec: `surface_gl_destroy_texture` of `ui/console-gl.c`,
which is not part of this file.  The GL texture of the surface is deleted; a
null surface or a surface without texture is left alone. -/
def surface_gl_destroy_texture (ds : Option DisplaySurface) :
    Option DisplaySurface × List Event :=
  match ds with
  | none => (none, [])
  | some d =>
    if d.texture = 0 then (some d, [])
    else (some { d with texture := 0 }, [Event.tex_destroy d.texture])

/-- Modelled from the spec: `surface_gl_create_texture` of `ui/console-gl.c`,
which is not part of this file.  The surface receives a freshly generated GL
texture name, so a recreated texture has a new identity; there is nothing to
create for a null surface.  `names` counts the texture names handed out so
far; the result carries the new count. -/
def surface_gl_create_texture (names : Nat) (ds : Option DisplaySurface) :
    Option DisplaySurface × Nat × List Event :=
  match ds with
  | none => (none, names, [])
  | some d => (some { d with texture := names + 1 }, names + 1, [Event.tex_create (names + 1)])

/-- An external buffer descriptor `QemuDmaBuf`.  Modelled from the spec:
`texture` is the texture name found in the descriptor after
`egl_dmabuf_import_texture` (not part of this file) has run, `0` when
the import failed. -/
structure QemuDmaBuf where
  width : Nat
  height : Nat
  texture : Nat
deriving DecidableEq, Repr

/-! ## Mode controller -/

/-- The function `gtk_gl_area_set_scanout_mode(vc, scanout)`. -/
def gtk_gl_area_set_scanout_mode (s : State) (scanout : Bool) : State × List Event :=
  if s.scanout_mode = scanout then (s, [])
  else
    let s1 := { s with scanout_mode := scanout }
    if !s1.scanout_mode then
      let r := egl_fb_destroy s1.guest_fb
      let s2 := { s1 with guest_fb := r.1 }
      if s2.surface then
        let d := surface_gl_destroy_texture s2.ds
        let c := surface_gl_create_texture s2.tex_names d.1
        ({ s2 with ds := c.1, tex_names := c.2.1 }, r.2 ++ d.2 ++ c.2.2)
      else (s2, r.2)
    else (s1, [])

/-! ## Display callbacks -/

/-- The function `gd_gl_area_draw(vc)`. -/
def gd_gl_area_draw (s : State) : State × List Event :=
  if !s.gls then (s, [])
  else if s.scanout_mode then
    if s.guest_fb.framebuffer = 0 then (s, [Event.make_current])
    else
      let y1 : Int := if s.y0_top then 0 else int_of_u32 s.h
      let y2 : Int := if s.y0_top then int_of_u32 s.h else 0
      (s, [Event.make_current,
           Event.bind_read_framebuffer s.guest_fb.framebuffer,
           Event.viewport s.off_x s.off_y s.fbw s.fbh,
           Event.blit 0 y1 (int_of_u32 s.w) y2 s.off_x s.off_y (s.off_x + s.fbw) (s.off_y + s.fbh),
           Event.gl_flush, Event.gl_flushed])
  else
    match s.ds with
    | none => (s, [Event.make_current])
    | some d =>
      (s, [Event.make_current, Event.make_current,
           Event.setup_viewport s.ww s.wh,
           Event.render_texture d.texture,
           Event.gl_flush, Event.gl_flushed])

/-- The function `gd_gl_area_update(dcl, x, y, w, h)`. -/
def gd_gl_area_update (s : State) (x y w h : Int) : State × List Event :=
  if !s.gls || s.ds.isNone then (s, [])
  else ({ s with glupdates := s.glupdates + 1 }, [Event.make_current, Event.tex_update x y w h])

/-- The function `gd_gl_area_switch(dcl, surface)`; tracing is omitted. -/
def gd_gl_area_switch (s : State) (surface : DisplaySurface) : State × List Event :=
  let resized : Bool :=
    match s.ds with
    | some d => !(d.width == surface.width && d.height == surface.height)
    | none => true
  let r : State × List Event :=
    if s.gls then
      let d := surface_gl_destroy_texture s.ds
      let c := surface_gl_create_texture s.tex_names (some surface)
      ({ s with ds := c.1, tex_names := c.2.1 }, [Event.make_current] ++ d.2 ++ c.2.2)
    else ({ s with ds := some surface }, [])
  if resized then (r.1, r.2 ++ [Event.update_windowsize]) else r

/-- The function `gd_gl_area_scanout_texture(dcl, backing_id, backing_y_0_top,
backing_width, backing_height, x, y, w, h)`. -/
def gd_gl_area_scanout_texture (s : State) (backing_id : Nat) (backing_y_0_top : Bool)
    (backing_width backing_height x y w h : Nat) : State × List Event :=
  let s1 := { s with x := x, y := y, w := w, h := h, y0_top := backing_y_0_top }
  if backing_id = 0 ∨ s1.w = 0 ∨ s1.h = 0 then
    let r := gtk_gl_area_set_scanout_mode s1 false
    (r.1, [Event.make_current] ++ r.2)
  else
    let r := gtk_gl_area_set_scanout_mode s1 true
    let f := egl_fb_setup_for_tex r.1.fb_names r.1.guest_fb backing_width backing_height
      backing_id false
    ({ r.1 with guest_fb := f.1, fb_names := f.2.1 }, [Event.make_current] ++ r.2 ++ f.2.2)

/-- The function `gd_gl_area_scanout_disable(dcl)`. -/
def gd_gl_area_scanout_disable (s : State) : State × List Event :=
  gtk_gl_area_set_scanout_mode s false

/-- The function `gd_gl_area_scanout_flush(dcl, x, y, w, h)`. -/
def gd_gl_area_scanout_flush (s : State) (_x _y _w _h : Nat) : State × List Event :=
  (s, [Event.queue_render])

/-- The function `gd_gl_area_scanout_dmabuf(dcl, dmabuf)`; `config_gbm` says whether
the file is compiled with `CONFIG_GBM`. -/
def gd_gl_area_scanout_dmabuf (config_gbm : Bool) (s : State) (dmabuf : QemuDmaBuf) :
    State × List Event :=
  if config_gbm then
    if dmabuf.texture = 0 then (s, [Event.make_current, Event.dmabuf_import])
    else
      let r := gd_gl_area_scanout_texture s dmabuf.texture false dmabuf.width dmabuf.height
        0 0 dmabuf.width dmabuf.height
      (r.1, [Event.make_current, Event.dmabuf_import] ++ r.2)
  else (s, [])

/-- A listener callback that the console layer may invoke while the guest
pushes new frame data. -/
inductive Callback where
  | update (x y w h : Int)
  | switch (surface : DisplaySurface)
  | scanout_texture (backing_id : Nat) (backing_y_0_top : Bool)
      (backing_width backing_height x y w h : Nat)
  | scanout_disable
  | scanout_flush (x y w h : Nat)
  | scanout_dmabuf (dmabuf : QemuDmaBuf)
deriving DecidableEq, Repr

/-- Dispatch of one listener callback. -/
def Callback.run (config_gbm : Bool) (s : State) : Callback → State × List Event
  | .update x y w h => gd_gl_area_update s x y w h
  | .switch surface => gd_gl_area_switch s surface
  | .scanout_texture id top bw bh x y w h => gd_gl_area_scanout_texture s id top bw bh x y w h
  | .scanout_disable => gd_gl_area_scanout_disable s
  | .scanout_flush x y w h => gd_gl_area_scanout_flush s x y w h
  | .scanout_dmabuf d => gd_gl_area_scanout_dmabuf config_gbm s d

/-- A sequence of listener callbacks run in order. -/
def runCallbacks (config_gbm : Bool) (s : State) : List Callback → State × List Event
  | [] => (s, [])
  | c :: cs =>
    let r := c.run config_gbm s
    let t := runCallbacks config_gbm r.1 cs
    (t.1, r.2 ++ t.2)

/-- Modelled from the spec: `graphic_hw_update` of the console layer, which is
not part of this file ("NotifyGuestUpdate, during Refresh, to let the guest
push new frame data before mode re-evaluation").  The guest answers with a
finite sequence `hook` of listener callbacks. -/
def graphic_hw_update (config_gbm : Bool) (hook : List Callback) (s : State) :
    State × List Event :=
  let r := runCallbacks config_gbm s hook
  (r.1, [Event.hw_update] ++ r.2)

/-- Lines 118-127 of `gd_gl_area_refresh`: lazy creation of the renderer
state.  The result is `none` when the function returns early because the
widget is not realized. -/
def gd_gl_area_refresh_init (s : State) (realized : Bool) : Option (State × List Event) :=
  if !s.gls then
    if !realized then none
    else
      let s1 := { s with gls := true }
      if s1.ds.isSome then
        let c := surface_gl_create_texture s1.tex_names s1.ds
        some ({ s1 with ds := c.1, tex_names := c.2.1 },
              [Event.make_current, Event.init_shader] ++ c.2.2)
      else some (s1, [Event.make_current, Event.init_shader])
  else some (s, [])

/-- Lines 131-135 of `gd_gl_area_refresh`: mode re-evaluation after the guest
update hook. -/
def gd_gl_area_refresh_flush (s : State) : State × List Event :=
  if s.glupdates ≠ 0 then
    let r := gtk_gl_area_set_scanout_mode { s with glupdates := 0 } false
    (r.1, r.2 ++ [Event.queue_render])
  else (s, [])

/-- The function `gd_gl_area_refresh(dcl)`; `realized` is the value returned by
`gtk_widget_get_realized`, `hook` the guest's answer to `graphic_hw_update`. -/
def gd_gl_area_refresh (config_gbm : Bool) (s : State) (realized : Bool)
    (hook : List Callback) : State × List Event :=
  match gd_gl_area_refresh_init s realized with
  | none => (s, [])
  | some a =>
    let b := graphic_hw_update config_gbm hook a.1
    let c := gd_gl_area_refresh_flush b.1
    (c.1, a.2 ++ b.2 ++ c.2)

/-- A public operation of the output. -/
inductive Op where
  | callback (c : Callback)
  | refresh (realized : Bool) (hook : List Callback)
  | draw
deriving DecidableEq, Repr

/-- Execution of one public operation. -/
def Op.run (config_gbm : Bool) (s : State) : Op → State × List Event
  | .callback c => c.run config_gbm s
  | .refresh realized hook => gd_gl_area_refresh config_gbm s realized hook
  | .draw => gd_gl_area_draw s

/-- States reachable from `init` by the public operations and by window
resizes (`gd_gl_area_size_update`, wherever it is defined). -/
inductive Reachable (config_gbm : Bool) : State → Prop where
  | init : Reachable config_gbm init
  | step (s : State) (op : Op) : Reachable config_gbm s → Reachable config_gbm (op.run config_gbm s).1
  | resize (s t : State) (w h wsf : Int) : Reachable config_gbm s →
      gd_gl_area_size_update s w h wsf = some t → Reachable config_gbm t

/-! ## The letterbox formula of the specification -/

/-- The stored viewport geometry: scale, draw size and offsets. -/
structure Viewport where
  scale : Dbl
  fbw : Int
  fbh : Int
  off_x : Int
  off_y : Int
deriving DecidableEq

/-- Second definition for the refinement statement, written from the words of
the specification rather than from the code: the uniform scale is
`s = min(w/sw, h/sh)`, the stored scale is `s / wsf`, the draw size is
`trunc(sw*s) x trunc(sh*s)`, and the offsets are `((w - fbw)/2, 0)` when
`w > fbw` and `(0, (h - fbh)/2)` otherwise.  Quotients and products are
doubles; `trunc` is the integer part of the value of a double. -/
def letterbox_spec (w h wsf sw sh : Int) : Viewport :=
  let a := Dbl.divInts w sw
  let b := Dbl.divInts h sh
  let s := if b.val ≤ a.val then b else a
  let fbw := ⌊(Dbl.mulNat sw.toNat s).val⌋
  let fbh := ⌊(Dbl.mulNat sh.toNat s).val⌋
  { scale := s.divInt wsf, fbw := fbw, fbh := fbh,
    off_x := if w > fbw then (w - fbw) / 2 else 0,
    off_y := if w > fbw then 0 else (h - fbh) / 2 }

/-- The state `s` with the viewport `v` stored for a window of size `w x h`. -/
def State.withViewport (s : State) (w h : Int) (v : Viewport) : State :=
  { s with ww := w, wh := h, scale_x := v.scale, scale_y := v.scale,
           fbw := v.fbw, fbh := v.fbh, off_x := v.off_x, off_y := v.off_y }

/-- A guest surface of the given size. -/
def surfaceOf (image : Nat) (width height : Int) : DisplaySurface :=
  ⟨image, width, height, 0⟩

/-- A state with a guest surface and a stored content size of `sw x sh`, in
Scanout mode: reached from `init` by a switch to the surface and a scanout of
a `sw x sh` texture. -/
def scanoutState (sw sh : Nat) : State :=
  (gd_gl_area_scanout_texture (gd_gl_area_switch init (surfaceOf 1 sw sh)).1
    1 true sw sh 0 0 sw sh).1

/-- A state whose guest surface is `640 x 480` while the stored content size
is `1280 x 960`: reached from `init` by a switch to the surface and a scanout
of a `1280 x 960` texture region. -/
def mismatchState : State :=
  (gd_gl_area_scanout_texture (gd_gl_area_switch init (surfaceOf 1 640 480)).1
    1 true 1280 960 0 0 1280 960).1

/-! ## Predicates used in the statements -/

/-- A present: the scanout blit or the rendering of the surface texture. -/
def Event.isPresent : Event → Bool
  | .blit _ _ _ _ _ _ _ _ => true
  | .render_texture _ => true
  | _ => false

/-- The condition under which `gd_gl_area_draw` has something to present: the
renderer state exists and either the mode is Scanout with a non-empty guest
framebuffer, or the mode is Surface with a guest surface. -/
def presentCond (s : State) : Bool :=
  s.gls && ((s.scanout_mode && s.guest_fb.framebuffer != 0) ||
            (!s.scanout_mode && s.ds.isSome))

/-- The scanout request carries a valid buffer handle: nonzero backing id and
nonzero dimensions. -/
def validHandle (backing_id w h : Nat) : Bool :=
  backing_id != 0 && w != 0 && h != 0

/-- The callback is a scanout of a texture, directly or through an imported
external buffer. -/
def Callback.isScanoutTexture : Callback → Bool
  | .scanout_texture _ _ _ _ _ _ _ _ => true
  | .scanout_dmabuf _ => true
  | _ => false

/-- A state in Scanout mode with a renderer and a textured guest surface:
reached from `init` by a refresh on a realized widget, a switch to a
`640 x 480` surface and a scanout of a `640 x 480` texture. -/
def texturedScanoutState : State :=
  (gd_gl_area_scanout_texture
    (gd_gl_area_switch (gd_gl_area_refresh false init true []).1 (surfaceOf 7 640 480)).1
    5 true 640 480 0 0 640 480).1

/-- The mode/resource invariant: the guest framebuffer is non-empty only in
Scanout mode. -/
def ModeInv (s : State) : Prop := s.scanout_mode = false → s.guest_fb.framebuffer = 0

/-- The pending-update invariant: nothing is pending while the renderer state
does not exist. -/
def CountInv (s : State) : Prop := s.gls = false → s.glupdates = 0

/-- The callback is a partial update of the surface texture. -/
def Callback.isUpdate : Callback → Bool
  | .update _ _ _ _ => true
  | _ => false

/-! ## Properties of the rounding model -/

theorem ilog2Aux_spec (fuel : Nat) : ∀ n, 0 < n → n ≤ fuel →
    2 ^ ilog2Aux fuel n ≤ n ∧ n < 2 ^ (ilog2Aux fuel n + 1) := by
  induction fuel with
  | zero => intro n h0 h1; omega
  | succ f ih =>
    intro n h0 h1
    unfold ilog2Aux
    by_cases h2 : n < 2
    · simp [h2]; omega
    · simp only [h2, if_false]
      have hh := ih (n / 2) (by omega) (by omega)
      obtain ⟨ha, hb⟩ := hh
      rw [pow_succ, pow_succ]
      constructor
      · omega
      · rw [pow_succ] at hb; omega

/-- The value `ilog2 n` is the position of the leading one bit of `n`. -/
theorem ilog2_spec (n : Nat) (h : 0 < n) : 2 ^ ilog2 n ≤ n ∧ n < 2 ^ (ilog2 n + 1) :=
  ilog2Aux_spec n n h (le_refl n)

/-- The rounded quotient is within one half of the exact quotient. -/
theorem roundHalfEven_close (n d : Nat) (hd : 0 < d) :
    2 * (d * roundHalfEven n d) ≤ 2 * n + d ∧ 2 * n ≤ 2 * (d * roundHalfEven n d) + d := by
  have h1 := Nat.div_add_mod n d
  have h2 := Nat.mod_lt n hd
  unfold roundHalfEven
  simp only
  generalize n / d = q at *
  generalize n % d = r at *
  generalize hp : d * q = p at *
  split_ifs <;> simp only [Nat.mul_add, hp] <;> omega

/-- The scaling of `binade` brings the fraction into `[2^52, 2^53)`, and only
one of the two shifts is used. -/
theorem binade_spec (n d : Nat) (hn : 0 < n) (hd : 0 < d) :
    2 ^ 52 * (d * 2 ^ (binade n d).2) ≤ n * 2 ^ (binade n d).1 ∧
    n * 2 ^ (binade n d).1 < 2 ^ 53 * (d * 2 ^ (binade n d).2) ∧
    ((binade n d).1 = 0 ∨ (binade n d).2 = 0) := by
  obtain ⟨ha1, ha2⟩ := ilog2_spec n hn
  obtain ⟨hb1, hb2⟩ := ilog2_spec d hd
  unfold binade
  simp only
  generalize ilog2 n = a at *
  generalize ilog2 d = b at *
  rw [pow_succ] at ha2 hb2
  by_cases hab : a ≤ 53 + b
  · have hv : a - (53 + b) = 0 := by omega
    obtain ⟨u, hu⟩ : ∃ u, 53 + b - a = u := ⟨_, rfl⟩
    have hAU : 2 ^ a * 2 ^ u = 2 ^ 53 * 2 ^ b := by
      rw [← pow_add, ← pow_add]; congr 1; omega
    rw [hv, hu]
    have hU : 0 < 2 ^ u := by positivity
    have h1 : 2 ^ 53 * 2 ^ b ≤ n * 2 ^ u := by
      rw [← hAU]; exact Nat.mul_le_mul_right _ ha1
    have h2 : n * 2 ^ u < 2 * (2 ^ 53 * 2 ^ b) := by
      rw [← hAU, ← Nat.mul_assoc]
      exact Nat.mul_lt_mul_of_pos_right (by omega) hU
    clear hAU ha1 ha2 hu hv hab
    by_cases hc : d * 2 ^ 0 * 2 ^ 53 ≤ n * 2 ^ u
    · rw [if_pos hc]
      by_cases hu0 : u = 0
      · rw [if_pos hu0]
        subst hu0
        dsimp only
        simp only [pow_zero, Nat.mul_one, Nat.zero_add, pow_one] at hc h1 h2 ⊢
        exact ⟨by omega, by omega, Or.inl trivial⟩
      · rw [if_neg hu0]
        obtain ⟨k, rfl⟩ : ∃ k, u = k + 1 := ⟨u - 1, by omega⟩
        dsimp only
        rw [Nat.add_sub_cancel, pow_zero, Nat.mul_one]
        rw [pow_zero, Nat.mul_one, pow_succ 2 k, ← Nat.mul_assoc] at hc
        rw [pow_succ 2 k, ← Nat.mul_assoc] at h1 h2
        generalize n * 2 ^ k = X at *
        omega
    · rw [if_neg hc]
      dsimp only
      rw [pow_zero, Nat.mul_one] at hc ⊢
      generalize n * 2 ^ u = X at *
      omega
  · have hu : 53 + b - a = 0 := by omega
    obtain ⟨v, hv⟩ : ∃ v, a - (53 + b) = v := ⟨_, rfl⟩
    have hBV : 2 ^ 53 * (2 ^ b * 2 ^ v) = 2 ^ a := by
      rw [← pow_add, ← pow_add]; congr 1; omega
    rw [hu, hv]
    have hV : 0 < 2 ^ v := by positivity
    have h1 : 2 ^ b * 2 ^ v ≤ d * 2 ^ v := Nat.mul_le_mul_right _ hb1
    have h2 : d * 2 ^ v < 2 * (2 ^ b * 2 ^ v) := by
      rw [← Nat.mul_assoc]
      exact Nat.mul_lt_mul_of_pos_right (by omega) hV
    rw [← hBV] at ha1 ha2
    clear hBV hb1 hb2 hu hv hab
    by_cases hc : d * 2 ^ v * 2 ^ 53 ≤ n * 2 ^ 0
    · rw [if_pos hc, if_pos rfl]
      dsimp only
      rw [pow_zero, Nat.mul_one] at hc ⊢
      rw [pow_succ 2 v, show d * (2 ^ v * 2) = d * 2 ^ v * 2 from by ring]
      generalize d * 2 ^ v = Y at *
      generalize 2 ^ b * 2 ^ v = W at *
      omega
    · rw [if_neg hc]
      dsimp only
      rw [pow_zero, Nat.mul_one] at hc ⊢
      generalize d * 2 ^ v = Y at *
      generalize 2 ^ b * 2 ^ v = W at *
      omega

/-- A power of two with a difference of naturals as exponent. -/
theorem two_zpow_sub (v u : Nat) : (2 : ℚ) ^ ((v : Int) - (u : Int)) = 2 ^ v / 2 ^ u := by
  rw [zpow_sub₀ (two_ne_zero), zpow_natCast, zpow_natCast]

/-- The value of a rounded positive fraction in terms of its significand. -/
theorem roundFrac_val (n d : Nat) (hn : n ≠ 0) :
    (roundFrac false n d).neg = false ∧
    (roundFrac false n d).val =
      (roundHalfEven (n * 2 ^ (binade n d).1) (d * 2 ^ (binade n d).2) : ℚ)
        * 2 ^ (binade n d).2 / 2 ^ (binade n d).1 := by
  unfold roundFrac
  rw [if_neg hn]
  dsimp only
  split_ifs with hm
  · refine ⟨rfl, ?_⟩
    simp only [Dbl.val, Dbl.num, Bool.false_eq_true, if_false]
    rw [hm, zpow_add₀ (two_ne_zero), two_zpow_sub]
    push_cast
    ring
  · refine ⟨rfl, ?_⟩
    simp only [Dbl.val, Dbl.num, Bool.false_eq_true, if_false]
    rw [two_zpow_sub]
    push_cast
    ring

/-- Relative accuracy of rounding: the result is within `2^-53` of the exact
positive fraction. -/
theorem roundFrac_bounds (n d : Nat) (hd : 0 < d) :
    (roundFrac false n d).neg = false ∧
    (n : ℚ) / d * (1 - 1 / 2 ^ 53) ≤ (roundFrac false n d).val ∧
    (roundFrac false n d).val ≤ (n : ℚ) / d * (1 + 1 / 2 ^ 53) := by
  by_cases hn : n = 0
  · subst hn
    simp [roundFrac, Dbl.zero, Dbl.val, Dbl.num]
  · obtain ⟨h1, h2⟩ := roundFrac_val n d hn
    refine ⟨h1, ?_⟩
    rw [h2]
    obtain ⟨hb, -, -⟩ := binade_spec n d (Nat.pos_of_ne_zero hn) hd
    have hD : 0 < d * 2 ^ (binade n d).2 := by positivity
    obtain ⟨hc1, hc2⟩ := roundHalfEven_close (n * 2 ^ (binade n d).1) (d * 2 ^ (binade n d).2) hD
    generalize roundHalfEven (n * 2 ^ (binade n d).1) (d * 2 ^ (binade n d).2) = m at *
    generalize (binade n d).1 = u at *
    generalize (binade n d).2 = v at *
    have hb' : (2 : ℚ) ^ 52 * (d * 2 ^ v) ≤ n * 2 ^ u := by exact_mod_cast hb
    have hc1' : (2 : ℚ) * (d * 2 ^ v * m) ≤ 2 * (n * 2 ^ u) + d * 2 ^ v := by exact_mod_cast hc1
    have hc2' : (2 : ℚ) * (n * 2 ^ u) ≤ 2 * (d * 2 ^ v * m) + d * 2 ^ v := by exact_mod_cast hc2
    have hdq : (0 : ℚ) < d := by exact_mod_cast hd
    have hU : (0 : ℚ) < 2 ^ u := by positivity
    constructor
    · rw [div_mul_eq_mul_div, div_le_div_iff₀ hdq hU]
      nlinarith
    · rw [div_mul_eq_mul_div, div_le_div_iff₀ hU hdq]
      nlinarith

/-- The significand produced by rounding is zero or has exactly 53 bits. -/
theorem roundFrac_normalized (neg : Bool) (n d : Nat) (hd : 0 < d) :
    (roundFrac neg n d).m = 0 ∨
      (2 ^ 52 ≤ (roundFrac neg n d).m ∧ (roundFrac neg n d).m < 2 ^ 53) := by
  unfold roundFrac
  by_cases hn : n = 0
  · left; rw [if_pos hn]; rfl
  · right
    rw [if_neg hn]
    obtain ⟨hb1, hb2, -⟩ := binade_spec n d (Nat.pos_of_ne_zero hn) hd
    have hD : 0 < d * 2 ^ (binade n d).2 := by positivity
    obtain ⟨hc1, hc2⟩ := roundHalfEven_close (n * 2 ^ (binade n d).1) (d * 2 ^ (binade n d).2) hD
    dsimp only
    generalize roundHalfEven (n * 2 ^ (binade n d).1) (d * 2 ^ (binade n d).2) = m at *
    generalize n * 2 ^ (binade n d).1 = N at *
    generalize d * 2 ^ (binade n d).2 = D at *
    have hlo : 2 ^ 52 ≤ m := by
      by_contra hlt
      have h1 : m + 1 ≤ 2 ^ 52 := by omega
      have h2 : D * (m + 1) ≤ D * 2 ^ 52 := Nat.mul_le_mul_left D h1
      have h3 : D * (m + 1) = D * m + D := by ring
      have h4 : D * 2 ^ 52 = 2 ^ 52 * D := by ring
      omega
    have hhi : m ≤ 2 ^ 53 := by
      by_contra hgt
      have h1 : 2 ^ 53 + 1 ≤ m := by omega
      have h2 : D * (2 ^ 53 + 1) ≤ D * m := Nat.mul_le_mul_left D h1
      have h3 : D * (2 ^ 53 + 1) = 2 ^ 53 * D + D := by ring
      omega
    split_ifs with hm
    · exact ⟨le_refl _, by norm_num⟩
    · exact ⟨hlo, Nat.lt_of_le_of_ne hhi hm⟩

/-- A power of two split into its numerator and denominator parts. -/
theorem two_zpow_split (e : Int) : (2 : ℚ) ^ e = 2 ^ e.toNat / 2 ^ (-e).toNat := by
  rcases le_total 0 e with h | h
  · obtain ⟨k, rfl⟩ := Int.eq_ofNat_of_zero_le h
    have h2 : (-(k : Int)).toNat = 0 := by omega
    rw [h2, Int.toNat_natCast, zpow_natCast, pow_zero, div_one]
  · obtain ⟨k, hk⟩ := Int.eq_ofNat_of_zero_le (Int.neg_nonneg_of_nonpos h)
    have he : e = -(k : Int) := by omega
    subst he
    have h2 : (-(k : Int)).toNat = 0 := by omega
    rw [h2, neg_neg, Int.toNat_natCast, zpow_neg, zpow_natCast, pow_zero, one_div]

/-- The value of a non-negative double as a fraction of naturals. -/
theorem val_of_nonneg (x : Dbl) (hx : x.neg = false) :
    x.val = (x.m : ℚ) * 2 ^ x.e.toNat / 2 ^ (-x.e).toNat := by
  simp only [Dbl.val, Dbl.num, hx, Bool.false_eq_true, if_false]
  rw [two_zpow_split]
  push_cast
  ring

/-- A double without sign bit denotes a non-negative number. -/
theorem val_nonneg (x : Dbl) (hx : x.neg = false) : 0 ≤ x.val := by
  rw [val_of_nonneg x hx]
  positivity

/-- Relative accuracy of the quotient of a non-negative by a positive `int`. -/
theorem divInts_bounds (a b : Int) (ha : 0 ≤ a) (hb : 0 < b) :
    (Dbl.divInts a b).neg = false ∧
    (a : ℚ) / b * (1 - 1 / 2 ^ 53) ≤ (Dbl.divInts a b).val ∧
    (Dbl.divInts a b).val ≤ (a : ℚ) / b * (1 + 1 / 2 ^ 53) := by
  obtain ⟨n, rfl⟩ := Int.eq_ofNat_of_zero_le ha
  obtain ⟨d, rfl⟩ := Int.eq_ofNat_of_zero_le (le_of_lt hb)
  have h1 : decide ((n : Int) < 0) = false := by simp
  have h2 : decide ((d : Int) < 0) = false := by simp
  unfold Dbl.divInts
  rw [h1, h2]
  have hd : 0 < d := by exact_mod_cast hb
  simpa using roundFrac_bounds n d hd

/-- Relative accuracy of the product of a content dimension and a
non-negative double. -/
theorem mulNat_bounds (g : Nat) (x : Dbl) (hx : x.neg = false) :
    (Dbl.mulNat g x).neg = false ∧
    (g : ℚ) * x.val * (1 - 1 / 2 ^ 53) ≤ (Dbl.mulNat g x).val ∧
    (Dbl.mulNat g x).val ≤ (g : ℚ) * x.val * (1 + 1 / 2 ^ 53) := by
  unfold Dbl.mulNat
  rw [hx]
  have hd : 0 < 2 ^ (-x.e).toNat := by positivity
  have h := roundFrac_bounds (g * x.m * 2 ^ x.e.toNat) (2 ^ (-x.e).toNat) hd
  have hv : (g : ℚ) * x.val = ((g * x.m * 2 ^ x.e.toNat : Nat) : ℚ) / ((2 ^ (-x.e).toNat : Nat) : ℚ) := by
    rw [val_of_nonneg x hx]
    push_cast
    ring
  rw [hv]
  exact h

/-- The comparison of doubles is the comparison of their values. -/
theorem lt_iff (a b : Dbl) : a.lt b = true ↔ a.val < b.val := by
  unfold Dbl.lt
  rw [decide_eq_true_iff]
  have hk : b.e - a.e = -(a.e - b.e) := by ring
  have h1 : (2 : ℚ) ^ a.e = 2 ^ b.e * (2 ^ (a.e - b.e).toNat / 2 ^ (b.e - a.e).toNat) := by
    rw [hk, ← two_zpow_split, ← zpow_add₀ (two_ne_zero)]
    congr 1
    ring
  have hB : (0 : ℚ) < 2 ^ b.e := by positivity
  have hP : (0 : ℚ) < 2 ^ (b.e - a.e).toNat := by positivity
  unfold Dbl.val
  rw [h1]
  generalize a.num = na
  generalize b.num = nb
  have hcast : (na * 2 ^ (a.e - b.e).toNat < nb * 2 ^ (b.e - a.e).toNat) ↔
      ((na : ℚ) * 2 ^ (a.e - b.e).toNat < (nb : ℚ) * 2 ^ (b.e - a.e).toNat) := by
    constructor
    · intro h; exact_mod_cast h
    · intro h; exact_mod_cast h
  rw [hcast]
  rw [show (na : ℚ) * (2 ^ b.e * (2 ^ (a.e - b.e).toNat / 2 ^ (b.e - a.e).toNat))
        = ((na : ℚ) * 2 ^ (a.e - b.e).toNat / 2 ^ (b.e - a.e).toNat) * 2 ^ b.e from by ring]
  rw [mul_lt_mul_right hB, div_lt_iff₀ hP]

/-- The truncation of a non-negative double is the integer part of its value. -/
theorem trunc_spec (x : Dbl) (hx : x.neg = false) :
    ∃ z : Int, (if 0 ≤ x.e then x.num * 2 ^ x.e.toNat else Int.tdiv x.num (2 ^ (-x.e).toNat)) = z ∧
      0 ≤ z ∧ (z : ℚ) ≤ x.val ∧ x.val < z + 1 := by
  have hnum : x.num = (x.m : Int) := by simp [Dbl.num, hx]
  by_cases he : 0 ≤ x.e
  · have h0 : (-x.e).toNat = 0 := by omega
    have hv : x.val = ((x.m * 2 ^ x.e.toNat : Nat) : ℚ) := by
      rw [val_of_nonneg x hx, h0]; push_cast; ring
    refine ⟨((x.m * 2 ^ x.e.toNat : Nat) : Int), ?_, by positivity, ?_, ?_⟩
    · rw [if_pos he, hnum]; push_cast; rfl
    · rw [hv]; push_cast; exact le_refl _
    · rw [hv]; push_cast; linarith
  · have h0 : x.e.toNat = 0 := by omega
    have hv : x.val = (x.m : ℚ) / ((2 ^ (-x.e).toNat : Nat) : ℚ) := by
      rw [val_of_nonneg x hx, h0]; push_cast; ring
    have ht : Int.tdiv x.num (2 ^ (-x.e).toNat) = ((x.m / 2 ^ (-x.e).toNat : Nat) : Int) := by
      rw [hnum, Int.ofNat_tdiv]; push_cast; rfl
    have hP : 0 < 2 ^ (-x.e).toNat := by positivity
    rw [if_neg he, ht]
    generalize 2 ^ (-x.e).toNat = P at *
    have hPq : (0 : ℚ) < P := by exact_mod_cast hP
    have hdm := Nat.div_add_mod x.m P
    have hml := Nat.mod_lt x.m hP
    have hdmq : (P : ℚ) * ((x.m / P : Nat) : ℚ) + ((x.m % P : Nat) : ℚ) = x.m := by exact_mod_cast hdm
    have hmlq : ((x.m % P : Nat) : ℚ) < P := by exact_mod_cast hml
    have hr0 : (0 : ℚ) ≤ ((x.m % P : Nat) : ℚ) := by positivity
    refine ⟨((x.m / P : Nat) : Int), rfl, by positivity, ?_, ?_⟩
    · rw [hv, le_div_iff₀ hPq, Int.cast_natCast]; nlinarith
    · rw [hv, div_lt_iff₀ hPq, Int.cast_natCast]; nlinarith

/-- A successful conversion of a non-negative double yields its integer part. -/
theorem toInt_some (x : Dbl) (hx : x.neg = false) (z : Int) (hz : x.toInt = some z) :
    0 ≤ z ∧ (z : ℚ) ≤ x.val ∧ x.val < z + 1 := by
  obtain ⟨t, ht, h0, h1, h2⟩ := trunc_spec x hx
  unfold Dbl.toInt at hz
  simp only [ht] at hz
  split_ifs at hz
  cases hz
  exact ⟨h0, h1, h2⟩

/-- The conversion of a non-negative double below `2^31` succeeds. -/
theorem toInt_spec (x : Dbl) (hx : x.neg = false) (hlt : x.val < 2147483648) :
    ∃ z : Int, x.toInt = some z ∧ 0 ≤ z ∧ (z : ℚ) ≤ x.val ∧ x.val < z + 1 := by
  obtain ⟨t, ht, h0, h1, h2⟩ := trunc_spec x hx
  refine ⟨t, ?_, h0, h1, h2⟩
  unfold Dbl.toInt
  simp only [ht]
  have hzq : (t : ℚ) < 2147483648 := lt_of_le_of_lt h1 hlt
  have hzi : t < 2147483648 := by exact_mod_cast hzq
  rw [if_pos ⟨by omega, by omega⟩]

/-- The macro `MIN` returns one of its arguments. -/
theorem MIN_cases (a b : Dbl) : MIN a b = a ∨ MIN a b = b := by
  unfold MIN
  split_ifs
  · exact Or.inl rfl
  · exact Or.inr rfl

/-- The macro `MIN` returns a value below both arguments. -/
theorem MIN_val_le (a b : Dbl) : (MIN a b).val ≤ a.val ∧ (MIN a b).val ≤ b.val := by
  unfold MIN
  by_cases h : a.lt b = true
  · rw [if_pos h]
    exact ⟨le_refl _, le_of_lt ((lt_iff a b).1 h)⟩
  · rw [if_neg h]
    have h2 : ¬ a.val < b.val := fun hc => h ((lt_iff a b).2 hc)
    exact ⟨not_lt.1 h2, le_refl _⟩

/-- The scale chosen by `gd_gl_area_size_update` is a non-negative double within
rounding distance of both exact quotients from above, and of the smaller one
from below. -/
theorem scale_bounds (w h sw sh : Int) (hw : 0 ≤ w) (hh : 0 ≤ h) (hsw : 0 < sw) (hsh : 0 < sh) :
    (MIN (Dbl.divInts w sw) (Dbl.divInts h sh)).neg = false ∧
    (MIN (Dbl.divInts w sw) (Dbl.divInts h sh)).val ≤ (w : ℚ) / sw * (1 + 1 / 2 ^ 53) ∧
    (MIN (Dbl.divInts w sw) (Dbl.divInts h sh)).val ≤ (h : ℚ) / sh * (1 + 1 / 2 ^ 53) ∧
    ((w : ℚ) / sw * (1 - 1 / 2 ^ 53) ≤ (MIN (Dbl.divInts w sw) (Dbl.divInts h sh)).val ∨
     (h : ℚ) / sh * (1 - 1 / 2 ^ 53) ≤ (MIN (Dbl.divInts w sw) (Dbl.divInts h sh)).val) := by
  obtain ⟨a1, a2, a3⟩ := divInts_bounds w sw hw hsw
  obtain ⟨b1, b2, b3⟩ := divInts_bounds h sh hh hsh
  obtain ⟨m1, m2⟩ := MIN_val_le (Dbl.divInts w sw) (Dbl.divInts h sh)
  refine ⟨?_, le_trans m1 a3, le_trans m2 b3, ?_⟩
  · rcases MIN_cases (Dbl.divInts w sw) (Dbl.divInts h sh) with hc | hc <;> rw [hc] <;> assumption
  · rcases MIN_cases (Dbl.divInts w sw) (Dbl.divInts h sh) with hc | hc <;> rw [hc]
    · exact Or.inl a2
    · exact Or.inr b2

/-- Upper bound on a draw dimension: scaling a content dimension `g ≤ b` by a
scale that is (up to rounding) at most `a / b` truncates to at most `a`. -/
theorem fb_le (g : Nat) (a b : Int) (sc : Dbl) (ha : 0 ≤ a) (ha2 : a ≤ 2147483647)
    (hb : 0 < b) (hg : (g : Int) ≤ b) (hneg : sc.neg = false)
    (hsc : sc.val ≤ (a : ℚ) / b * (1 + 1 / 2 ^ 53)) :
    ∃ z : Int, (Dbl.mulNat g sc).toInt = some z ∧ 0 ≤ z ∧ z ≤ a := by
  obtain ⟨y1, -, y3⟩ := mulNat_bounds g sc hneg
  have hbq : (0 : ℚ) < b := by exact_mod_cast hb
  have haq : (0 : ℚ) ≤ a := by exact_mod_cast ha
  have ha2q : (a : ℚ) ≤ 2147483647 := by exact_mod_cast ha2
  have hgq : (g : ℚ) ≤ b := by exact_mod_cast hg
  have hg0 : (0 : ℚ) ≤ g := by positivity
  have hs0 : 0 ≤ sc.val := val_nonneg sc hneg
  have h1 : (g : ℚ) * sc.val ≤ a * (1 + 1 / 2 ^ 53) := by
    calc (g : ℚ) * sc.val ≤ b * sc.val := mul_le_mul_of_nonneg_right hgq hs0
      _ ≤ b * ((a : ℚ) / b * (1 + 1 / 2 ^ 53)) := mul_le_mul_of_nonneg_left hsc (le_of_lt hbq)
      _ = a * (1 + 1 / 2 ^ 53) := by field_simp; ring
  have h2 : (Dbl.mulNat g sc).val ≤ a * (1 + 1 / 2 ^ 53) * (1 + 1 / 2 ^ 53) :=
    le_trans y3 (mul_le_mul_of_nonneg_right h1 (by norm_num))
  have h3 : (Dbl.mulNat g sc).val < a + 1 := by
    refine lt_of_le_of_lt h2 ?_
    nlinarith
  obtain ⟨z, hz, hz0, hz1, -⟩ := toInt_spec (Dbl.mulNat g sc) y1 (by linarith)
  refine ⟨z, hz, hz0, ?_⟩
  have : (z : ℚ) < a + 1 := lt_of_le_of_lt hz1 h3
  have : z < a + 1 := by exact_mod_cast this
  omega

/-- Unfolding of `gd_gl_area_size_update` once both draw dimensions are known. -/
theorem size_update_eq (s : State) (d : DisplaySurface) (w h wsf fbw fbh : Int)
    (hds : s.ds = some d) (h0 : d.width ≠ 0) (h1 : d.height ≠ 0) (h2 : wsf ≠ 0)
    (e1 : (Dbl.mulNat s.w (MIN (Dbl.divInts w d.width) (Dbl.divInts h d.height))).toInt
      = some fbw)
    (e2 : (Dbl.mulNat s.h (MIN (Dbl.divInts w d.width) (Dbl.divInts h d.height))).toInt
      = some fbh)
    (r1 : -2147483648 ≤ w - fbw ∧ w - fbw ≤ 2147483647)
    (r2 : -2147483648 ≤ h - fbh ∧ h - fbh ≤ 2147483647) :
    gd_gl_area_size_update s w h wsf = some
      { s with ww := w, wh := h,
               scale_x := (MIN (Dbl.divInts w d.width) (Dbl.divInts h d.height)).divInt wsf,
               scale_y := (MIN (Dbl.divInts w d.width) (Dbl.divInts h d.height)).divInt wsf,
               fbw := fbw, fbh := fbh,
               off_x := if fbw < w then Int.tdiv (w - fbw) 2 else 0,
               off_y := if fbw < w then 0 else Int.tdiv (h - fbh) 2 } := by
  unfold gd_gl_area_size_update
  rw [hds]
  simp only [h0, h1, h2, or_self, if_false, e1, e2, Option.some_bind, subInt]
  by_cases hlt : fbw < w
  · simp only [hlt, if_true, r1, and_self, Option.some_bind]
  · simp only [hlt, if_true, if_false, r2, and_self, Option.some_bind]

/-- The minimum of the specification is the `MIN` macro of the code. -/
theorem spec_min_eq (a b : Dbl) : (if b.val ≤ a.val then b else a) = MIN a b := by
  unfold MIN
  by_cases h : a.lt b = true
  · rw [if_pos h, if_neg (not_le.2 ((lt_iff a b).1 h))]
  · rw [if_neg h]
    have h2 : ¬ a.val < b.val := fun hc => h ((lt_iff a b).2 hc)
    rw [if_pos (not_lt.1 h2)]

/-- A successful conversion of a non-negative double is the floor of its value. -/
theorem floor_of_toInt (x : Dbl) (hx : x.neg = false) (z : Int) (hz : x.toInt = some z) :
    ⌊x.val⌋ = z := by
  obtain ⟨-, h1, h2⟩ := toInt_some x hx z hz
  exact Int.floor_eq_iff.2 ⟨h1, h2⟩

/-- Refinement of the letterbox formula by `gd_gl_area_size_update` when the stored
content size equals the surface size. -/
theorem size_update_refines (s : State) (d : DisplaySurface) (w h wsf : Int)
    (hds : s.ds = some d) (hsw : 0 < d.width) (hsh : 0 < d.height)
    (hgw : (s.w : Int) = d.width) (hgh : (s.h : Int) = d.height)
    (hw : 0 ≤ w) (hw2 : w ≤ 2147483647) (hh : 0 ≤ h) (hh2 : h ≤ 2147483647)
    (hwsf : wsf ≠ 0) :
    gd_gl_area_size_update s w h wsf =
      some (s.withViewport w h (letterbox_spec w h wsf d.width d.height)) := by
  obtain ⟨n1, n2, n3, -⟩ := scale_bounds w h d.width d.height hw hh hsw hsh
  obtain ⟨fbw, e1, f1, f2⟩ := fb_le s.w w d.width _ hw hw2 hsw (le_of_eq hgw) n1 n2
  obtain ⟨fbh, e2, g1, g2⟩ := fb_le s.h h d.height _ hh hh2 hsh (le_of_eq hgh) n1 n3
  obtain ⟨m1, -, -⟩ := mulNat_bounds s.w _ n1
  obtain ⟨m2, -, -⟩ := mulNat_bounds s.h _ n1
  rw [size_update_eq s d w h wsf fbw fbh hds (ne_of_gt hsw) (ne_of_gt hsh) hwsf e1 e2
    ⟨by omega, by omega⟩ ⟨by omega, by omega⟩]
  have t1 : d.width.toNat = s.w := by omega
  have t2 : d.height.toNat = s.h := by omega
  unfold letterbox_spec State.withViewport
  simp only [spec_min_eq, t1, t2, floor_of_toInt _ m1 fbw e1, floor_of_toInt _ m2 fbh e2]
  have q1 : Int.tdiv (w - fbw) 2 = (w - fbw) / 2 := Int.tdiv_eq_ediv (by omega) (by omega)
  have q2 : Int.tdiv (h - fbh) 2 = (h - fbh) / 2 := Int.tdiv_eq_ediv (by omega) (by omega)
  rw [q1, q2]

/-- The draw size and offsets stored by `gd_gl_area_size_update`, once both draw
dimensions are known. -/
theorem size_update_at (s : State) (d : DisplaySurface) (w h wsf fbw fbh : Int)
    (hds : s.ds = some d) (h0 : d.width ≠ 0) (h1 : d.height ≠ 0) (h2 : wsf ≠ 0)
    (e1 : (Dbl.mulNat s.w (MIN (Dbl.divInts w d.width) (Dbl.divInts h d.height))).toInt
      = some fbw)
    (e2 : (Dbl.mulNat s.h (MIN (Dbl.divInts w d.width) (Dbl.divInts h d.height))).toInt
      = some fbh)
    (r1 : -2147483648 ≤ w - fbw ∧ w - fbw ≤ 2147483647)
    (r2 : -2147483648 ≤ h - fbh ∧ h - fbh ≤ 2147483647) :
    ∃ t, gd_gl_area_size_update s w h wsf = some t ∧ t.ww = w ∧ t.wh = h ∧
      t.fbw = fbw ∧ t.fbh = fbh ∧
      t.off_x = (if fbw < w then Int.tdiv (w - fbw) 2 else 0) ∧
      t.off_y = (if fbw < w then 0 else Int.tdiv (h - fbh) 2) ∧
      t.scanout_mode = s.scanout_mode ∧ t.guest_fb = s.guest_fb ∧ t.gls = s.gls ∧
      t.glupdates = s.glupdates ∧ t.w = s.w ∧ t.h = s.h ∧ t.y0_top = s.y0_top :=
  ⟨_, size_update_eq s d w h wsf fbw fbh hds h0 h1 h2 e1 e2 r1 r2,
    rfl, rfl, rfl, rfl, rfl, rfl, rfl, rfl, rfl, rfl, rfl, rfl, rfl⟩

/-- C1: `gd_gl_area_size_update` computes the letterbox geometry by the formula of
the specification.  For a window `w x h` with `w, h ≥ 1`, device scale factor
`wsf ≥ 1` and a guest surface of size `sw x sh > 0` equal to the stored
content size, it stores the viewport `letterbox_spec w h wsf sw sh` (scale
`min(w/sw, h/sh)/wsf`, draw size `trunc(sw*s) x trunc(sh*s)`, offsets by the
case `w > fbw`).  In particular window `1000x600` with guest `640x480` gives
draw `800x600` and offsets `(100, 0)`, and window `800x600` with guest
`640x480` or `320x240` gives draw `800x600` and offsets `(0, 0)`. -/
theorem size_update_letterbox :
    (∀ (s : State) (d : DisplaySurface) (w h wsf : Int),
      s.ds = some d → 0 < d.width → 0 < d.height →
      (s.w : Int) = d.width → (s.h : Int) = d.height →
      1 ≤ w → w ≤ 2147483647 → 1 ≤ h → h ≤ 2147483647 → 1 ≤ wsf →
      gd_gl_area_size_update s w h wsf =
        some (s.withViewport w h (letterbox_spec w h wsf d.width d.height))) ∧
    (∀ (s : State) (d : DisplaySurface) (wsf : Int),
      s.ds = some d → d.width = 640 → d.height = 480 → s.w = 640 → s.h = 480 → 1 ≤ wsf →
      ∃ t, gd_gl_area_size_update s 1000 600 wsf = some t ∧
        t.fbw = 800 ∧ t.fbh = 600 ∧ t.off_x = 100 ∧ t.off_y = 0) ∧
    (∀ (s : State) (d : DisplaySurface) (wsf : Int),
      s.ds = some d → d.width = 640 → d.height = 480 → s.w = 640 → s.h = 480 → 1 ≤ wsf →
      ∃ t, gd_gl_area_size_update s 800 600 wsf = some t ∧
        t.fbw = 800 ∧ t.fbh = 600 ∧ t.off_x = 0 ∧ t.off_y = 0) ∧
    (∀ (s : State) (d : DisplaySurface) (wsf : Int),
      s.ds = some d → d.width = 320 → d.height = 240 → s.w = 320 → s.h = 240 → 1 ≤ wsf →
      ∃ t, gd_gl_area_size_update s 800 600 wsf = some t ∧
        t.fbw = 800 ∧ t.fbh = 600 ∧ t.off_x = 0 ∧ t.off_y = 0) := by
  refine ⟨?_, ?_, ?_, ?_⟩
  · intro s d w h wsf hds hsw hsh hgw hgh hw hw2 hh hh2 hwsf
    exact size_update_refines s d w h wsf hds hsw hsh hgw hgh (by omega) hw2 (by omega) hh2
      (by omega)
  · intro s d wsf hds hdw hdh hgw hgh hwsf
    have e1 : (Dbl.mulNat s.w (MIN (Dbl.divInts 1000 d.width) (Dbl.divInts 600 d.height))).toInt
        = some 800 := by rw [hdw, hdh, hgw]; decide
    have e2 : (Dbl.mulNat s.h (MIN (Dbl.divInts 1000 d.width) (Dbl.divInts 600 d.height))).toInt
        = some 600 := by rw [hdw, hdh, hgh]; decide
    obtain ⟨t, ht, -, -, a1, a2, a3, a4, -⟩ := size_update_at s d 1000 600 wsf 800 600 hds
      (by omega) (by omega) (by omega) e1 e2 (by decide) (by decide)
    exact ⟨t, ht, a1, a2, by rw [a3]; decide, by rw [a4]; decide⟩
  · intro s d wsf hds hdw hdh hgw hgh hwsf
    have e1 : (Dbl.mulNat s.w (MIN (Dbl.divInts 800 d.width) (Dbl.divInts 600 d.height))).toInt
        = some 800 := by rw [hdw, hdh, hgw]; decide
    have e2 : (Dbl.mulNat s.h (MIN (Dbl.divInts 800 d.width) (Dbl.divInts 600 d.height))).toInt
        = some 600 := by rw [hdw, hdh, hgh]; decide
    obtain ⟨t, ht, -, -, a1, a2, a3, a4, -⟩ := size_update_at s d 800 600 wsf 800 600 hds
      (by omega) (by omega) (by omega) e1 e2 (by decide) (by decide)
    exact ⟨t, ht, a1, a2, by rw [a3]; decide, by rw [a4]; decide⟩
  · intro s d wsf hds hdw hdh hgw hgh hwsf
    have e1 : (Dbl.mulNat s.w (MIN (Dbl.divInts 800 d.width) (Dbl.divInts 600 d.height))).toInt
        = some 800 := by rw [hdw, hdh, hgw]; decide
    have e2 : (Dbl.mulNat s.h (MIN (Dbl.divInts 800 d.width) (Dbl.divInts 600 d.height))).toInt
        = some 600 := by rw [hdw, hdh, hgh]; decide
    obtain ⟨t, ht, -, -, a1, a2, a3, a4, -⟩ := size_update_at s d 800 600 wsf 800 600 hds
      (by omega) (by omega) (by omega) e1 e2 (by decide) (by decide)
    exact ⟨t, ht, a1, a2, by rw [a3]; decide, by rw [a4]; decide⟩

/-- Witness for C1: the general statement and the first scenario applied to
the state reached by switching to a `640 x 480` surface and scanning out a
`640 x 480` texture, resized to a `1000 x 600` window. -/
theorem size_update_letterbox_witness :
    gd_gl_area_size_update (scanoutState 640 480) 1000 600 1 =
      some ((scanoutState 640 480).withViewport 1000 600 (letterbox_spec 1000 600 1 640 480)) ∧
    ∃ t, gd_gl_area_size_update (scanoutState 640 480) 1000 600 1 = some t ∧
      t.fbw = 800 ∧ t.fbh = 600 ∧ t.off_x = 100 ∧ t.off_y = 0 :=
  ⟨size_update_letterbox.1 (scanoutState 640 480) (surfaceOf 1 640 480) 1000 600 1
      (by decide) (by decide) (by decide) (by decide) (by decide) (by decide) (by decide)
      (by decide) (by decide) (by decide),
   size_update_letterbox.2.1 (scanoutState 640 480) (surfaceOf 1 640 480) 1
      (by decide) (by decide) (by decide) (by decide) (by decide) (by decide)⟩

/-- Counterexample to C2 as stated: with a `640 x 480` guest surface and a
stored content size of `1280 x 960`, a resize to an `800 x 600` window
stores a `1600 x 1200` draw rectangle at vertical offset `-300`, which does
not fit within the window. -/
theorem size_update_overflows_window :
    ∃ t, gd_gl_area_size_update mismatchState 800 600 1 = some t ∧
      t.fbw = 1600 ∧ t.fbh = 1200 ∧ t.off_x = 0 ∧ t.off_y = -300 ∧
      ¬ (0 ≤ t.off_x ∧ 0 ≤ t.off_y ∧ t.off_x + t.fbw ≤ 800 ∧ t.off_y + t.fbh ≤ 600) := by
  obtain ⟨t, ht, -, -, a1, a2, a3, a4, -⟩ := size_update_at mismatchState (surfaceOf 1 640 480)
    800 600 1 1600 1200 (by decide) (by decide) (by decide) (by decide) (by decide) (by decide)
    (by decide) (by decide)
  have b3 : t.off_x = 0 := by rw [a3]; decide
  have b4 : t.off_y = -300 := by rw [a4]; decide
  refine ⟨t, ht, a1, a2, b3, b4, ?_⟩
  rw [a1, a2, b3, b4]
  decide

/-- The destination rectangle of the blit issued by `gd_gl_area_draw` is the stored
draw rectangle. -/
theorem draw_blit_rect (t : State) (sx0 sy0 sx1 sy1 dx0 dy0 dx1 dy1 : Int)
    (hb : Event.blit sx0 sy0 sx1 sy1 dx0 dy0 dx1 dy1 ∈ (gd_gl_area_draw t).2) :
    dx0 = t.off_x ∧ dy0 = t.off_y ∧ dx1 = t.off_x + t.fbw ∧ dy1 = t.off_y + t.fbh := by
  unfold gd_gl_area_draw at hb
  by_cases hg : t.gls = true
  · by_cases hm : t.scanout_mode = true
    · by_cases hf : t.guest_fb.framebuffer = 0
      · simp [hg, hm, hf] at hb
      · simp only [hg, hm, hf, Bool.not_true, Bool.false_eq_true, if_false, if_true,
          List.mem_cons, List.mem_singleton, Event.blit.injEq, false_or, or_false,
          reduceCtorEq, List.not_mem_nil] at hb
        obtain ⟨-, -, -, -, h1, h2, h3, h4⟩ := hb
        exact ⟨h1, h2, h3, h4⟩
    · cases hds : t.ds <;> simp [hg, hm, hds] at hb
  · simp [hg] at hb

/-- C2 (amended): for every window size `w x h` and every guest surface of
size `sw x sh > 0`, provided the stored content size `vc->gfx.w/h` does not
exceed the surface size (in particular when the two are equal),
`gd_gl_area_size_update` succeeds and the stored draw rectangle, which is the
destination rectangle of the scanout blit, fits within the window:
`off_x ≥ 0`, `off_y ≥ 0`, `off_x + fbw ≤ w`, `off_y + fbh ≤ h`. -/
theorem size_update_fits (s : State) (d : DisplaySurface) (w h wsf : Int)
    (hds : s.ds = some d) (hsw : 0 < d.width) (hsh : 0 < d.height)
    (hgw : (s.w : Int) ≤ d.width) (hgh : (s.h : Int) ≤ d.height)
    (hw : 0 ≤ w) (hw2 : w ≤ 2147483647) (hh : 0 ≤ h) (hh2 : h ≤ 2147483647)
    (hwsf : wsf ≠ 0) :
    ∃ t, gd_gl_area_size_update s w h wsf = some t ∧
      0 ≤ t.fbw ∧ 0 ≤ t.fbh ∧
      0 ≤ t.off_x ∧ 0 ≤ t.off_y ∧ t.off_x + t.fbw ≤ w ∧ t.off_y + t.fbh ≤ h ∧
      ∀ sx0 sy0 sx1 sy1 dx0 dy0 dx1 dy1 : Int,
        Event.blit sx0 sy0 sx1 sy1 dx0 dy0 dx1 dy1 ∈ (gd_gl_area_draw t).2 →
        0 ≤ dx0 ∧ 0 ≤ dy0 ∧ dx1 ≤ w ∧ dy1 ≤ h := by
  obtain ⟨n1, n2, n3, -⟩ := scale_bounds w h d.width d.height hw hh hsw hsh
  obtain ⟨fbw, e1, f1, f2⟩ := fb_le s.w w d.width _ hw hw2 hsw hgw n1 n2
  obtain ⟨fbh, e2, g1, g2⟩ := fb_le s.h h d.height _ hh hh2 hsh hgh n1 n3
  obtain ⟨t, ht, -, -, a1, a2, a3, a4, -⟩ := size_update_at s d w h wsf fbw fbh hds
    (ne_of_gt hsw) (ne_of_gt hsh) hwsf e1 e2 ⟨by omega, by omega⟩ ⟨by omega, by omega⟩
  have q1 : Int.tdiv (w - fbw) 2 = (w - fbw) / 2 := Int.tdiv_eq_ediv (by omega) (by omega)
  have q2 : Int.tdiv (h - fbh) 2 = (h - fbh) / 2 := Int.tdiv_eq_ediv (by omega) (by omega)
  rw [q1] at a3
  rw [q2] at a4
  have b1 : 0 ≤ t.off_x := by rw [a3]; split_ifs <;> omega
  have b2 : 0 ≤ t.off_y := by rw [a4]; split_ifs <;> omega
  have b3 : t.off_x + t.fbw ≤ w := by rw [a3, a1]; split_ifs <;> omega
  have b4 : t.off_y + t.fbh ≤ h := by rw [a4, a2]; split_ifs <;> omega
  refine ⟨t, ht, by omega, by omega, b1, b2, b3, b4, ?_⟩
  intro sx0 sy0 sx1 sy1 dx0 dy0 dx1 dy1 hb
  obtain ⟨c1, c2, c3, c4⟩ := draw_blit_rect t sx0 sy0 sx1 sy1 dx0 dy0 dx1 dy1 hb
  rw [c1, c2, c3, c4]
  exact ⟨b1, b2, b3, b4⟩

/-- Witness for C2 (amended): a `640 x 480` guest in a `1000 x 600` window. -/
theorem size_update_fits_witness :
    ∃ t, gd_gl_area_size_update (scanoutState 640 480) 1000 600 1 = some t ∧
      0 ≤ t.off_x ∧ 0 ≤ t.off_y ∧ t.off_x + t.fbw ≤ 1000 ∧ t.off_y + t.fbh ≤ 600 :=
  match size_update_fits (scanoutState 640 480) (surfaceOf 1 640 480) 1000 600 1
    (by decide) (by decide) (by decide) (by decide) (by decide) (by decide) (by decide)
    (by decide) (by decide) (by decide) with
  | ⟨t, h1, _, _, h2, h3, h4, h5, _⟩ => ⟨t, h1, h2, h3, h4, h5⟩

/-- Rounding is visible in the stored geometry: for an `800 x 600` guest in a
`402 x 600` window the double product `800 * (402/800)` truncates to `401`,
so the draw width is one pixel short of the window and the vertical offset is
pinned to `0`. -/
theorem rounding_shortens_draw_width :
    ∃ t, gd_gl_area_size_update (scanoutState 800 600) 402 600 1 = some t ∧
      t.fbw = 401 ∧ t.fbh = 301 ∧ t.off_x = 0 ∧ t.off_y = 0 := by
  obtain ⟨t, ht, -, -, a1, a2, a3, a4, -⟩ := size_update_at (scanoutState 800 600)
    (surfaceOf 1 800 600) 402 600 1 401 301 (by decide) (by decide) (by decide) (by decide)
    (by decide) (by decide) (by decide) (by decide)
  exact ⟨t, ht, a1, a2, by rw [a3]; decide, by rw [a4]; decide⟩

/-! ## Mode controller -/

theorem set_scanout_mode_same (s : State) :
    gtk_gl_area_set_scanout_mode s s.scanout_mode = (s, []) := by
  unfold gtk_gl_area_set_scanout_mode
  rw [if_pos rfl]

/-- Entering Scanout mode only sets the mode flag. -/
theorem set_scanout_mode_true (s : State) :
    gtk_gl_area_set_scanout_mode s true = ({ s with scanout_mode := true }, []) := by
  unfold gtk_gl_area_set_scanout_mode
  by_cases h : s.scanout_mode = true
  · rw [if_pos h]
    cases s
    simp only at h
    subst h
    rfl
  · rw [if_neg h]
    simp

/-- After `egl_fb_destroy` the record is empty. -/
theorem egl_fb_destroy_empty (fb : egl_fb) : (egl_fb_destroy fb).1.framebuffer = 0 := by
  unfold egl_fb_destroy
  split_ifs with h
  · exact h
  · rfl

/-- Effect of `gtk_gl_area_set_scanout_mode(vc, false)` on the fields other than
the surface texture. -/
theorem set_scanout_mode_false_fields (s : State) :
    let r := gtk_gl_area_set_scanout_mode s false
    r.1.scanout_mode = false ∧
    (s.scanout_mode = true → r.1.guest_fb.framebuffer = 0) ∧
    (s.scanout_mode = false → r.1 = s ∧ r.2 = []) ∧
    r.1.gls = s.gls ∧ r.1.surface = s.surface ∧ r.1.glupdates = s.glupdates ∧
    r.1.x = s.x ∧ r.1.y = s.y ∧ r.1.w = s.w ∧ r.1.h = s.h ∧ r.1.y0_top = s.y0_top ∧
    r.1.fb_names = s.fb_names ∧ r.1.ds.isSome = s.ds.isSome ∧
    (∀ n, Event.fb_create n ∉ r.2) ∧ Event.queue_render ∉ r.2 := by
  unfold gtk_gl_area_set_scanout_mode
  by_cases hm : s.scanout_mode = true
  · by_cases hs : s.surface = true
    · cases hd : s.ds <;>
        simp [hm, hs, hd, egl_fb_destroy_empty, surface_gl_destroy_texture,
          surface_gl_create_texture, egl_fb_destroy] <;>
        split_ifs <;> simp [*]
    · simp [hm, hs, egl_fb_destroy_empty, egl_fb_destroy]
      split_ifs <;> simp [*]
  · simp at hm
    simp [hm]

/-- C4: mode-transition idempotence.  For every output state and every
argument tuple, a second `gd_gl_area_scanout_texture` call with the same
parameters leaves the state reached by the first call unchanged and issues
nothing but the make-current call (no framebuffer or texture is created or
destroyed); a second `gd_gl_area_scanout_disable` leaves the state unchanged and
issues no call at all; and a request for the mode already in effect is a
no-op of `gtk_gl_area_set_scanout_mode`. -/
theorem scanout_idempotent :
    (∀ (s : State) (backing_id : Nat) (top : Bool) (bw bh x y w h : Nat),
      gd_gl_area_scanout_texture (gd_gl_area_scanout_texture s backing_id top bw bh x y w h).1
          backing_id top bw bh x y w h =
        ((gd_gl_area_scanout_texture s backing_id top bw bh x y w h).1, [Event.make_current])) ∧
    (∀ s : State,
      gd_gl_area_scanout_disable (gd_gl_area_scanout_disable s).1 =
        ((gd_gl_area_scanout_disable s).1, [])) ∧
    (∀ s : State, gtk_gl_area_set_scanout_mode s s.scanout_mode = (s, [])) := by
  refine ⟨?_, ?_, set_scanout_mode_same⟩
  · intro s backing_id top bw bh x y w h
    by_cases hv : backing_id = 0 ∨ w = 0 ∨ h = 0
    · have f := set_scanout_mode_false_fields
        { s with x := x, y := y, w := w, h := h, y0_top := top }
      obtain ⟨f1, -, -, -, -, -, f2, f3, f4, f5, f6, -⟩ := f
      have e1 : gd_gl_area_scanout_texture s backing_id top bw bh x y w h =
          ((gtk_gl_area_set_scanout_mode
              { s with x := x, y := y, w := w, h := h, y0_top := top } false).1,
           [Event.make_current] ++ (gtk_gl_area_set_scanout_mode
              { s with x := x, y := y, w := w, h := h, y0_top := top } false).2) := by
        unfold gd_gl_area_scanout_texture
        simp only [hv, if_true]
      rw [e1]
      generalize (gtk_gl_area_set_scanout_mode
        { s with x := x, y := y, w := w, h := h, y0_top := top } false).1 = t at *
      simp only at f2 f3 f4 f5 f6
      have e2 : { t with x := x, y := y, w := w, h := h, y0_top := top } = t := by
        cases t
        simp only at f2 f3 f4 f5 f6
        subst f2 f3 f4 f5 f6
        rfl
      unfold gd_gl_area_scanout_texture
      simp only [hv, if_true, e2]
      have e3 : gtk_gl_area_set_scanout_mode t false = (t, []) := by
        rw [← f1]; exact set_scanout_mode_same t
      rw [e3]
      rfl
    · unfold gd_gl_area_scanout_texture
      simp only [hv, if_false, set_scanout_mode_true, egl_fb_setup_for_tex]
      by_cases hf : s.guest_fb.framebuffer = 0
      · simp [hf]
      · simp [hf]
  · intro s
    obtain ⟨f1, -⟩ := set_scanout_mode_false_fields s
    unfold gd_gl_area_scanout_disable
    generalize (gtk_gl_area_set_scanout_mode s false).1 = t at *
    rw [← f1]
    exact set_scanout_mode_same t

/-- Without the member `vc->gfx.surface`, the transition to Surface mode leaves
the guest surface and its texture untouched. -/
theorem set_scanout_mode_false_keeps_texture (s : State) (hs : s.surface = false) :
    (gtk_gl_area_set_scanout_mode s false).1.ds = s.ds ∧
    (∀ n, Event.tex_destroy n ∉ (gtk_gl_area_set_scanout_mode s false).2) ∧
    (∀ n, Event.tex_create n ∉ (gtk_gl_area_set_scanout_mode s false).2) := by
  unfold gtk_gl_area_set_scanout_mode
  by_cases hm : s.scanout_mode = true
  · simp [hm, hs, egl_fb_destroy]
    split_ifs <;> simp
  · simp at hm
    simp [hm]

/-- C5 (evaluation at the failing input): in `texturedScanoutState` the mode is
Scanout, the renderer exists and the guest surface `vc->gfx.ds` is present
with texture `1`.  `gd_gl_area_scanout_disable` switches to Surface mode and
empties the guest framebuffer, but the surface keeps texture `1`: the only
call issued is the framebuffer deletion; the texture is neither destroyed
nor created, because the guard tests `vc->gfx.surface`, which is null. -/
theorem scanout_to_surface_keeps_texture :
    texturedScanoutState.scanout_mode = true ∧
    texturedScanoutState.gls = true ∧
    texturedScanoutState.surface = false ∧
    texturedScanoutState.ds = some ⟨7, 640, 480, 1⟩ ∧
    (gd_gl_area_scanout_disable texturedScanoutState).1.scanout_mode = false ∧
    (gd_gl_area_scanout_disable texturedScanoutState).1.guest_fb.framebuffer = 0 ∧
    (gd_gl_area_scanout_disable texturedScanoutState).1.ds = some ⟨7, 640, 480, 1⟩ ∧
    (gd_gl_area_scanout_disable texturedScanoutState).2 = [Event.fb_destroy 1] := by
  decide

/-! ## Present / draw routine -/

/-- The draw routine does not modify the output state. -/
theorem draw_state (s : State) : (gd_gl_area_draw s).1 = s := by
  unfold gd_gl_area_draw
  by_cases hg : s.gls = true
  · by_cases hm : s.scanout_mode = true
    · by_cases hf : s.guest_fb.framebuffer = 0
      · simp [hg, hm, hf]
      · simp [hg, hm, hf]
    · cases hds : s.ds <;> simp [hg, hm, hds]
  · simp [hg]

/-- C6: for every output state, `gd_gl_area_draw` leaves the state unchanged; it
executes a present (the blit or the texture rendering) iff the renderer
state exists and either the mode is Scanout with a non-empty guest
framebuffer or the mode is Surface with a guest surface; it fires
`graphic_hw_gl_flushed` exactly once when it presents and not at all
otherwise; and without a renderer it issues no call at all. -/
theorem draw_notifies_once (s : State) :
    (gd_gl_area_draw s).1 = s ∧
    ((∃ e ∈ (gd_gl_area_draw s).2, e.isPresent = true) ↔ presentCond s = true) ∧
    (gd_gl_area_draw s).2.count Event.gl_flushed = (if presentCond s = true then 1 else 0) ∧
    (gd_gl_area_draw s).2.count Event.gl_flush = (if presentCond s = true then 1 else 0) ∧
    (s.gls = false → (gd_gl_area_draw s).2 = []) ∧
    (presentCond s = false → ∀ e ∈ (gd_gl_area_draw s).2, e = Event.make_current) := by
  unfold gd_gl_area_draw presentCond
  by_cases hg : s.gls = true
  · by_cases hm : s.scanout_mode = true
    · by_cases hf : s.guest_fb.framebuffer = 0
      · simp [hg, hm, hf, Event.isPresent]
      · simp [hg, hm, hf, Event.isPresent]
    · cases hds : s.ds <;> simp [hg, hm, hds, Event.isPresent]
  · simp [hg]

/-- Witness for C6: a draw before the renderer exists issues no call. -/
theorem draw_notifies_once_witness : (gd_gl_area_draw init).2 = [] :=
  (draw_notifies_once init).2.2.2.2.1 rfl

/-! ## Surface switch -/

theorem switch_ds (s : State) (surface : DisplaySurface) :
    (gd_gl_area_switch s surface).1.ds =
      some (if s.gls = true then { surface with texture := s.tex_names + 1 } else surface) := by
  unfold gd_gl_area_switch
  by_cases hg : s.gls = true
  · simp only [hg, if_true, surface_gl_create_texture]
    split_ifs <;> rfl
  · simp only [hg, if_false]
    split_ifs <;> rfl

/-- The number of resize notifications fired by `gd_gl_area_switch`. -/
theorem switch_count (s : State) (surface : DisplaySurface) :
    (gd_gl_area_switch s surface).2.count Event.update_windowsize =
      (match s.ds with
       | some d => if d.width = surface.width ∧ d.height = surface.height then 0 else 1
       | none => 1) := by
  unfold gd_gl_area_switch
  by_cases hg : s.gls = true
  · cases hd : s.ds with
    | none => simp [hg, surface_gl_create_texture, surface_gl_destroy_texture]
    | some d =>
      by_cases h1 : d.width = surface.width <;> by_cases h2 : d.height = surface.height <;>
        simp [hg, h1, h2, surface_gl_create_texture, surface_gl_destroy_texture] <;>
        split_ifs <;> simp
  · cases hd : s.ds with
    | none => simp [hg]
    | some d =>
      by_cases h1 : d.width = surface.width <;> by_cases h2 : d.height = surface.height <;>
        simp [hg, h1, h2]

/-- C7: `gd_gl_area_switch` triggers the window-resize notification only when the
dimensions differ.  When the current guest surface has the width and height
of the new surface no notification is fired; when there is no current
surface, or the width or the height differs, exactly one is fired.  In every
case the stored guest surface afterwards is the new surface (carrying a
freshly created texture when the renderer exists).  Hence Switch(A), Draw,
Switch(B) with `B` of the dimensions of `A` fires none on the second
switch. -/
theorem switch_resize_only_on_change :
    (∀ (s : State) (surface d : DisplaySurface), s.ds = some d →
      d.width = surface.width → d.height = surface.height →
      (gd_gl_area_switch s surface).2.count Event.update_windowsize = 0) ∧
    (∀ (s : State) (surface : DisplaySurface),
      (s.ds = none ∨ ∃ d, s.ds = some d ∧
        (d.width ≠ surface.width ∨ d.height ≠ surface.height)) →
      (gd_gl_area_switch s surface).2.count Event.update_windowsize = 1) ∧
    (∀ (s : State) (surface : DisplaySurface),
      (gd_gl_area_switch s surface).1.ds =
        some (if s.gls = true then { surface with texture := s.tex_names + 1 } else surface)) ∧
    (∀ (s : State) (a b : DisplaySurface), a.width = b.width → a.height = b.height →
      (gd_gl_area_switch (gd_gl_area_draw (gd_gl_area_switch s a).1).1 b).2.count
        Event.update_windowsize = 0) := by
  refine ⟨?_, ?_, switch_ds, ?_⟩
  · intro s surface d hd h1 h2
    rw [switch_count, hd]
    simp [h1, h2]
  · intro s surface h
    rw [switch_count]
    rcases h with h | ⟨d, hd, h⟩
    · rw [h]
    · rw [hd]
      have : ¬ (d.width = surface.width ∧ d.height = surface.height) := by
        rintro ⟨h1, h2⟩
        rcases h with h | h
        · exact h h1
        · exact h h2
      simp only [this, if_false]
  · intro s a b h1 h2
    rw [switch_count, draw_state, switch_ds]
    by_cases hg : s.gls = true
    · simp [hg, h1, h2]
    · simp [hg, h1, h2]

/-- Witness for C7: from the initial state, a switch to a `640 x 480` surface,
a draw and a switch to the same surface fire no resize notification on the
second switch. -/
theorem switch_resize_only_on_change_witness :
    (gd_gl_area_switch (gd_gl_area_draw (gd_gl_area_switch init (surfaceOf 1 640 480)).1).1
      (surfaceOf 1 640 480)).2.count Event.update_windowsize = 0 :=
  switch_resize_only_on_change.2.2.2 init (surfaceOf 1 640 480) (surfaceOf 1 640 480) rfl rfl

/-! ## Invariants of the reachable states -/

theorem scanout_texture_fields (s : State) (backing_id : Nat) (top : Bool)
    (bw bh x y w h : Nat) :
    let r := gd_gl_area_scanout_texture s backing_id top bw bh x y w h
    r.1.gls = s.gls ∧ r.1.glupdates = s.glupdates ∧ r.1.surface = s.surface ∧
    r.1.ds.isSome = s.ds.isSome ∧
    (r.1.scanout_mode = true ↔ validHandle backing_id w h = true) ∧
    (validHandle backing_id w h = true →
      r.1.guest_fb.texture = backing_id ∧ r.1.guest_fb.width = bw ∧
      r.1.guest_fb.height = bh ∧ r.1.guest_fb.framebuffer ≠ 0) ∧
    (validHandle backing_id w h = false → ModeInv s → r.1.guest_fb.framebuffer = 0) ∧
    (validHandle backing_id w h = false → s.scanout_mode = true →
      r.1.guest_fb.framebuffer = 0) ∧
    (∀ n, Event.fb_create n ∈ r.2 → r.1.scanout_mode = true) ∧
    Event.queue_render ∉ r.2 := by
  by_cases hv : backing_id = 0 ∨ w = 0 ∨ h = 0
  · have hv2 : validHandle backing_id w h = false := by
      unfold validHandle
      rcases hv with h1 | h1 | h1 <;> simp [h1]
    obtain ⟨f1, f2, f3, f4, f5, f6, -, -, -, -, -, -, f7, f8, f9⟩ :=
      set_scanout_mode_false_fields { s with x := x, y := y, w := w, h := h, y0_top := top }
    simp only at f1 f2 f3 f4 f5 f6 f7 f8 f9
    unfold gd_gl_area_scanout_texture
    simp only [hv, if_true, hv2]
    refine ⟨f4, f6, f5, f7, by simp [f1], by simp, ?_, ?_, ?_, ?_⟩
    · intro _ hinv
      by_cases hm : s.scanout_mode = true
      · exact f2 hm
      · simp only [Bool.not_eq_true] at hm
        rw [(f3 hm).1]
        exact hinv hm
    · intro _ hm
      exact f2 hm
    · intro n hn
      simp only [List.singleton_append, List.mem_cons, reduceCtorEq, false_or] at hn
      exact absurd hn (f8 n)
    · simp only [List.singleton_append, List.mem_cons, reduceCtorEq, false_or]
      exact f9
  · have hv2 : validHandle backing_id w h = true := by
      unfold validHandle
      simp only [not_or] at hv
      simp [hv.1, hv.2.1, hv.2.2]
    unfold gd_gl_area_scanout_texture
    simp only [hv, if_false, set_scanout_mode_true, egl_fb_setup_for_tex, hv2]
    by_cases hf : s.guest_fb.framebuffer = 0
    · simp [hf]
    · simp [hf]

/-- The function `gd_gl_area_scanout_dmabuf` either does nothing to the state or forwards to
`gd_gl_area_scanout_texture`. -/
theorem scanout_dmabuf_eq (cfg : Bool) (s : State) (d : QemuDmaBuf) :
    (gd_gl_area_scanout_dmabuf cfg s d = (s, []) ∨
     gd_gl_area_scanout_dmabuf cfg s d = (s, [Event.make_current, Event.dmabuf_import])) ∨
    (d.texture ≠ 0 ∧ gd_gl_area_scanout_dmabuf cfg s d =
      ((gd_gl_area_scanout_texture s d.texture false d.width d.height 0 0 d.width d.height).1,
       [Event.make_current, Event.dmabuf_import] ++
       (gd_gl_area_scanout_texture s d.texture false d.width d.height 0 0 d.width d.height).2)) := by
  unfold gd_gl_area_scanout_dmabuf
  by_cases hc : cfg = true
  · by_cases ht : d.texture = 0
    · simp [hc, ht]
    · right
      simp [hc, ht]
  · simp [hc]

/-- Fields left alone by `gd_gl_area_switch`. -/
theorem switch_fields (s : State) (surface : DisplaySurface) :
    let r := gd_gl_area_switch s surface
    r.1.scanout_mode = s.scanout_mode ∧ r.1.guest_fb = s.guest_fb ∧ r.1.gls = s.gls ∧
    r.1.glupdates = s.glupdates ∧ r.1.surface = s.surface ∧
    (∀ n, Event.fb_create n ∉ r.2) := by
  unfold gd_gl_area_switch
  by_cases hg : s.gls = true
  · cases hd : s.ds with
    | none =>
      simp [hg, surface_gl_create_texture, surface_gl_destroy_texture]
    | some d =>
      simp only [hg, if_true, surface_gl_create_texture, surface_gl_destroy_texture]
      split_ifs <;> simp
  · simp only [Bool.not_eq_true] at hg
    simp only [hg, Bool.false_eq_true, if_false]
    split_ifs <;> simp

/-- Effect of `gd_gl_area_update` on the pending count and the other fields. -/
theorem update_fields (s : State) (x y w h : Int) :
    let r := gd_gl_area_update s x y w h
    r.1.scanout_mode = s.scanout_mode ∧ r.1.guest_fb = s.guest_fb ∧ r.1.gls = s.gls ∧
    r.1.surface = s.surface ∧
    r.1.glupdates = s.glupdates + (if s.gls = true ∧ s.ds.isSome = true then 1 else 0) ∧
    (∀ n, Event.fb_create n ∉ r.2) := by
  unfold gd_gl_area_update
  by_cases hg : s.gls = true
  · cases hd : s.ds <;> simp [hg]
  · simp [hg]

/-- Effect of `gd_gl_area_scanout_disable`. -/
theorem scanout_disable_fields (s : State) :
    let r := gd_gl_area_scanout_disable s
    r.1.scanout_mode = false ∧ (ModeInv s → r.1.guest_fb.framebuffer = 0) ∧
    (s.scanout_mode = true → r.1.guest_fb.framebuffer = 0) ∧
    r.1.gls = s.gls ∧ r.1.glupdates = s.glupdates ∧ r.1.surface = s.surface ∧
    (∀ n, Event.fb_create n ∉ r.2) := by
  obtain ⟨f1, f2, f3, f4, f5, f6, -, -, -, -, -, -, -, f8, -⟩ := set_scanout_mode_false_fields s
  unfold gd_gl_area_scanout_disable
  refine ⟨f1, ?_, f2, f4, f6, f5, f8⟩
  intro hinv
  by_cases hm : s.scanout_mode = true
  · exact f2 hm
  · simp only [Bool.not_eq_true] at hm
    rw [(f3 hm).1]
    exact hinv hm

/-- What one listener callback does to the mode, the guest framebuffer, the
renderer flag and the pending count. -/
theorem callback_step (cfg : Bool) (s : State) (c : Callback) :
    (ModeInv s → ModeInv (c.run cfg s).1) ∧
    (s.scanout_mode = true → (c.run cfg s).1.scanout_mode = false →
      (c.run cfg s).1.guest_fb.framebuffer = 0) ∧
    (c.run cfg s).1.gls = s.gls ∧
    (c.run cfg s).1.surface = s.surface ∧
    (∀ x y w h, c = Callback.update x y w h →
      (c.run cfg s).1.glupdates =
        s.glupdates + (if s.gls = true ∧ s.ds.isSome = true then 1 else 0)) ∧
    ((∀ x y w h, c ≠ Callback.update x y w h) → (c.run cfg s).1.glupdates = s.glupdates) ∧
    (∀ n, Event.fb_create n ∈ (c.run cfg s).2 →
      c.isScanoutTexture = true ∧ (c.run cfg s).1.scanout_mode = true) := by
  cases c with
  | update x y w h =>
    obtain ⟨f1, f2, f3, f4, f5, f6⟩ := update_fields s x y w h
    simp only [Callback.run]
    refine ⟨?_, ?_, f3, f4, ?_, ?_, ?_⟩
    · intro hinv hm
      rw [f2]; rw [f1] at hm; exact hinv hm
    · intro hm hm2
      rw [f1, hm] at hm2; cases hm2
    · intro _ _ _ _ _; exact f5
    · intro hne; exact absurd rfl (hne x y w h)
    · intro n hn; exact absurd hn (f6 n)
  | switch surface =>
    obtain ⟨f1, f2, f3, f4, f5, f6⟩ := switch_fields s surface
    simp only [Callback.run]
    refine ⟨?_, ?_, f3, f5, ?_, ?_, ?_⟩
    · intro hinv hm
      rw [f2]; rw [f1] at hm; exact hinv hm
    · intro hm hm2
      rw [f1, hm] at hm2; cases hm2
    · intro _ _ _ _ hc; cases hc
    · intro _; exact f4
    · intro n hn; exact absurd hn (f6 n)
  | scanout_texture id top bw bh x y w h =>
    obtain ⟨f1, f2, f3, -, f5, f6, f7, f8, f9, -⟩ := scanout_texture_fields s id top bw bh x y w h
    simp only [Callback.run]
    refine ⟨?_, ?_, f1, f3, ?_, ?_, ?_⟩
    · intro hinv hm
      refine f7 ?_ hinv
      cases hv : validHandle id w h
      · rfl
      · rw [f5.2 hv] at hm; cases hm
    · intro hm hm2
      refine f8 ?_ hm
      cases hv : validHandle id w h
      · rfl
      · rw [f5.2 hv] at hm2; cases hm2
    · intro _ _ _ _ hc; cases hc
    · intro _; exact f2
    · intro n hn; exact ⟨rfl, f9 n hn⟩
  | scanout_disable =>
    obtain ⟨f1, f2, f3, f4, f5, f6, f7⟩ := scanout_disable_fields s
    simp only [Callback.run]
    refine ⟨?_, ?_, f4, f6, ?_, ?_, ?_⟩
    · intro hinv _; exact f2 hinv
    · intro hm _; exact f3 hm
    · intro _ _ _ _ hc; cases hc
    · intro _; exact f5
    · intro n hn; exact absurd hn (f7 n)
  | scanout_flush x y w h =>
    simp only [Callback.run, gd_gl_area_scanout_flush]
    refine ⟨fun hinv => hinv, ?_, trivial, trivial, ?_, ?_, ?_⟩
    · intro hm hm2; rw [hm] at hm2; cases hm2
    · intro _ _ _ _ hc; cases hc
    · intro _; trivial
    · intro n hn; simp at hn
  | scanout_dmabuf d =>
    simp only [Callback.run]
    rcases scanout_dmabuf_eq cfg s d with (h | h) | ⟨ht, h⟩
    · rw [h]
      refine ⟨fun hinv => hinv, ?_, rfl, rfl, ?_, ?_, ?_⟩
      · intro hm hm2; rw [hm] at hm2; cases hm2
      · intro _ _ _ _ hc; cases hc
      · intro _; rfl
      · intro n hn; simp at hn
    · rw [h]
      refine ⟨fun hinv => hinv, ?_, rfl, rfl, ?_, ?_, ?_⟩
      · intro hm hm2; rw [hm] at hm2; cases hm2
      · intro _ _ _ _ hc; cases hc
      · intro _; rfl
      · intro n hn; simp at hn
    · rw [h]
      obtain ⟨f1, f2, f3, -, f5, f6, f7, f8, f9, -⟩ :=
        scanout_texture_fields s d.texture false d.width d.height 0 0 d.width d.height
      refine ⟨?_, ?_, f1, f3, ?_, ?_, ?_⟩
      · intro hinv hm
        refine f7 ?_ hinv
        cases hv : validHandle d.texture d.width d.height
        · rfl
        · rw [f5.2 hv] at hm; cases hm
      · intro hm hm2
        refine f8 ?_ hm
        cases hv : validHandle d.texture d.width d.height
        · rfl
        · rw [f5.2 hv] at hm2; cases hm2
      · intro _ _ _ _ hc; cases hc
      · intro _; exact f2
      · intro n hn
        simp only [List.cons_append, List.nil_append, List.mem_cons, reduceCtorEq,
          false_or] at hn
        exact ⟨rfl, f9 n hn⟩

/-- Without a renderer no callback changes the pending count. -/
theorem callback_count_inv (cfg : Bool) (s : State) (c : Callback) (hg : s.gls = false) :
    (c.run cfg s).1.glupdates = s.glupdates := by
  obtain ⟨-, -, -, -, f5, f6, -⟩ := callback_step cfg s c
  by_cases hc : ∃ x y w h, c = Callback.update x y w h
  · obtain ⟨x, y, w, h, hc⟩ := hc
    rw [f5 x y w h hc]
    simp [hg]
  · apply f6
    intro x y w h hc2
    exact hc ⟨x, y, w, h, hc2⟩

/-- A sequence of callbacks preserves both invariants. -/
theorem runCallbacks_inv (cfg : Bool) (hook : List Callback) : ∀ s : State,
    (ModeInv s → ModeInv (runCallbacks cfg s hook).1) ∧
    (CountInv s → CountInv (runCallbacks cfg s hook).1) ∧
    (runCallbacks cfg s hook).1.gls = s.gls ∧
    (runCallbacks cfg s hook).1.surface = s.surface ∧
    (s.scanout_mode = true → (runCallbacks cfg s hook).1.scanout_mode = false →
      (runCallbacks cfg s hook).1.guest_fb.framebuffer = 0) := by
  induction hook with
  | nil =>
    intro s
    simp only [runCallbacks]
    refine ⟨fun h => h, fun h => h, trivial, trivial, ?_⟩
    intro hm hm2; rw [hm] at hm2; cases hm2
  | cons c cs ih =>
    intro s
    obtain ⟨f1, f2, f3, f4, -, -, -⟩ := callback_step cfg s c
    obtain ⟨g1, g2, g3, g4, g5⟩ := ih (c.run cfg s).1
    simp only [runCallbacks]
    refine ⟨fun h => g1 (f1 h), ?_, by rw [g3, f3], by rw [g4, f4], ?_⟩
    · intro hc
      apply g2
      intro hg
      rw [f3] at hg
      rw [callback_count_inv cfg s c hg]
      exact hc hg
    · intro hm hm2
      have hinv : ModeInv (c.run cfg s).1 := by
        intro hm3
        exact f2 hm hm3
      exact g1 hinv hm2

/-- Effect of the lazy renderer creation when it does not return early. -/
theorem refresh_init_fields (s : State) (realized : Bool) (a : State × List Event)
    (h : gd_gl_area_refresh_init s realized = some a) :
    a.1.scanout_mode = s.scanout_mode ∧ a.1.guest_fb = s.guest_fb ∧
    a.1.glupdates = s.glupdates ∧ a.1.gls = true ∧ a.1.surface = s.surface ∧
    (∀ n, Event.fb_create n ∉ a.2) ∧ Event.queue_render ∉ a.2 := by
  unfold gd_gl_area_refresh_init at h
  by_cases hg : s.gls = true
  · simp [hg] at h
    subst h
    simp [hg]
  · simp only [Bool.not_eq_true] at hg
    cases hr : realized
    · simp [hg, hr] at h
    · cases hd : s.ds with
      | none =>
        simp [hg, hr, hd] at h
        subst h
        simp
      | some d =>
        simp [hg, hr, hd, surface_gl_create_texture] at h
        subst h
        simp

/-- The early return happens only without renderer on an unrealized widget. -/
theorem refresh_init_none (s : State) (realized : Bool)
    (h : gd_gl_area_refresh_init s realized = none) : s.gls = false ∧ realized = false := by
  unfold gd_gl_area_refresh_init at h
  by_cases hg : s.gls = true
  · simp [hg] at h
  · simp only [Bool.not_eq_true] at hg
    cases hr : realized
    · exact ⟨hg, rfl⟩
    · cases hd : s.ds <;> simp [hg, hr, hd] at h

/-- Effect of the mode re-evaluation at the end of a refresh. -/
theorem refresh_flush_fields (s : State) :
    (gd_gl_area_refresh_flush s).1.glupdates = 0 ∧
    (gd_gl_area_refresh_flush s).1.gls = s.gls ∧
    (gd_gl_area_refresh_flush s).1.surface = s.surface ∧
    (ModeInv s → ModeInv (gd_gl_area_refresh_flush s).1) ∧
    (s.scanout_mode = true → (gd_gl_area_refresh_flush s).1.scanout_mode = false →
      (gd_gl_area_refresh_flush s).1.guest_fb.framebuffer = 0) ∧
    (0 < s.glupdates →
      (gd_gl_area_refresh_flush s).1.scanout_mode = false ∧
      (ModeInv s → (gd_gl_area_refresh_flush s).1.guest_fb.framebuffer = 0) ∧
      (gd_gl_area_refresh_flush s).2.count Event.queue_render = 1) ∧
    (s.glupdates = 0 → gd_gl_area_refresh_flush s = (s, [])) ∧
    (∀ n, Event.fb_create n ∉ (gd_gl_area_refresh_flush s).2) := by
  unfold gd_gl_area_refresh_flush
  by_cases hz : s.glupdates = 0
  · simp only [hz, ne_eq, not_true_eq_false, if_false]
    refine ⟨trivial, trivial, trivial, fun h => h, ?_, ?_, fun _ => trivial, ?_⟩
    · intro hm hm2; rw [hm] at hm2; cases hm2
    · intro h; exact absurd h (lt_irrefl 0)
    · intro n hn; simp at hn
  · obtain ⟨f1, f2, f3, f4, f5, f6, -, -, -, -, -, -, -, f8, f9⟩ :=
      set_scanout_mode_false_fields { s with glupdates := 0 }
    simp only at f1 f2 f3 f4 f5 f6 f8 f9
    simp only [hz, ne_eq, not_false_eq_true, if_true]
    have hfb : ModeInv s → (gtk_gl_area_set_scanout_mode { s with glupdates := 0 } false).1.guest_fb.framebuffer = 0 := by
      intro hinv
      by_cases hm : s.scanout_mode = true
      · exact f2 hm
      · simp only [Bool.not_eq_true] at hm
        rw [(f3 hm).1]
        exact hinv hm
    refine ⟨f6, f4, f5, ?_, ?_, ?_, ?_, ?_⟩
    · intro hinv _; exact hfb hinv
    · intro hm _; exact f2 hm
    · intro _
      refine ⟨f1, hfb, ?_⟩
      rw [List.count_append, List.count_eq_zero_of_not_mem f9]
      rfl
    · intro h; exact h.elim
    · intro n hn
      simp only [List.mem_append, List.mem_singleton, reduceCtorEq, or_false] at hn
      exact f8 n hn

/-- Fields left alone by `gd_gl_area_size_update`. -/
theorem size_update_fields (s t : State) (w h wsf : Int)
    (hs : gd_gl_area_size_update s w h wsf = some t) :
    t.scanout_mode = s.scanout_mode ∧ t.guest_fb = s.guest_fb ∧ t.gls = s.gls ∧
    t.glupdates = s.glupdates ∧ t.surface = s.surface ∧ t.ds = s.ds := by
  unfold gd_gl_area_size_update at hs
  cases hd : s.ds with
  | none => rw [hd] at hs; cases hs
  | some d =>
    rw [hd] at hs
    simp only at hs
    split_ifs at hs
    simp only [Option.bind_eq_some] at hs
    obtain ⟨fbw, -, fbh, -, hs⟩ := hs
    split_ifs at hs
    · simp only [Option.bind_eq_some] at hs
      obtain ⟨dx, -, hs⟩ := hs
      cases hs
      exact ⟨rfl, rfl, rfl, rfl, rfl, rfl⟩
    · simp only [Option.bind_eq_some] at hs
      obtain ⟨dx, -, hs⟩ := hs
      cases hs
      exact ⟨rfl, rfl, rfl, rfl, rfl, rfl⟩

/-- A refresh preserves both invariants and ends with nothing pending. -/
theorem refresh_inv (cfg : Bool) (s : State) (realized : Bool) (hook : List Callback) :
    (ModeInv s → ModeInv (gd_gl_area_refresh cfg s realized hook).1) ∧
    (CountInv s → CountInv (gd_gl_area_refresh cfg s realized hook).1) ∧
    (CountInv s → (gd_gl_area_refresh cfg s realized hook).1.glupdates = 0) ∧
    (gd_gl_area_refresh cfg s realized hook).1.surface = s.surface ∧
    (s.scanout_mode = true → (gd_gl_area_refresh cfg s realized hook).1.scanout_mode = false →
      (gd_gl_area_refresh cfg s realized hook).1.guest_fb.framebuffer = 0) := by
  unfold gd_gl_area_refresh
  cases hi : gd_gl_area_refresh_init s realized with
  | none =>
    obtain ⟨hg, -⟩ := refresh_init_none s realized hi
    simp only
    refine ⟨fun h => h, fun h => h, fun h => h hg, trivial, ?_⟩
    intro hm hm2; rw [hm] at hm2; cases hm2
  | some a =>
    obtain ⟨a1, a2, a3, a4, a5, -, -⟩ := refresh_init_fields s realized a hi
    obtain ⟨b1, -, b3, b4, b5⟩ := runCallbacks_inv cfg hook a.1
    obtain ⟨c1, c2, c3, c4, c5, -, -, -⟩ :=
      refresh_flush_fields (runCallbacks cfg a.1 hook).1
    simp only [graphic_hw_update]
    have hinvA : ModeInv s → ModeInv a.1 := by
      intro hinv hm
      rw [a2]; rw [a1] at hm; exact hinv hm
    refine ⟨fun h => c4 (b1 (hinvA h)), ?_, fun _ => c1, by rw [c3, b4, a5], ?_⟩
    · intro _ _; exact c1
    · intro hm hm2
      have hinvB : ModeInv (runCallbacks cfg a.1 hook).1 := by
        intro hm3
        exact b5 (by rw [a1]; exact hm) hm3
      exact c4 hinvB hm2

/-- Every public operation preserves both invariants. -/
theorem op_step_inv (cfg : Bool) (s : State) (op : Op) :
    (ModeInv s → ModeInv (op.run cfg s).1) ∧
    (CountInv s → CountInv (op.run cfg s).1) ∧
    (op.run cfg s).1.surface = s.surface ∧
    (s.scanout_mode = true → (op.run cfg s).1.scanout_mode = false →
      (op.run cfg s).1.guest_fb.framebuffer = 0) := by
  cases op with
  | callback c =>
    obtain ⟨f1, f2, f3, f4, -, -, -⟩ := callback_step cfg s c
    simp only [Op.run]
    refine ⟨f1, ?_, f4, f2⟩
    intro hc hg
    rw [f3] at hg
    rw [callback_count_inv cfg s c hg]
    exact hc hg
  | refresh realized hook =>
    obtain ⟨f1, f2, -, f4, f5⟩ := refresh_inv cfg s realized hook
    simp only [Op.run]
    exact ⟨f1, f2, f4, f5⟩
  | draw =>
    simp only [Op.run, draw_state s]
    refine ⟨fun h => h, fun h => h, trivial, ?_⟩
    intro hm hm2; rw [hm] at hm2; cases hm2

/-- Every reachable state satisfies the mode/resource invariant and the
pending-update invariant, and has a null `vc->gfx.surface`. -/
theorem reachable_inv (cfg : Bool) (s : State) (hr : Reachable cfg s) :
    ModeInv s ∧ CountInv s ∧ s.surface = false := by
  induction hr with
  | init => exact ⟨fun _ => rfl, fun _ => rfl, rfl⟩
  | step s op _ ih =>
    obtain ⟨f1, f2, f3, -⟩ := op_step_inv cfg s op
    exact ⟨f1 ih.1, f2 ih.2.1, by rw [f3]; exact ih.2.2⟩
  | resize s t w h wsf _ hs ih =>
    obtain ⟨g1, g2, g3, g4, g5, -⟩ := size_update_fields s t w h wsf hs
    refine ⟨?_, ?_, by rw [g5]; exact ih.2.2⟩
    · intro hm
      rw [g2]; rw [g1] at hm; exact ih.1 hm
    · intro hg
      rw [g4]; rw [g3] at hg; exact ih.2.1 hg

/-! ## Scanout of a texture -/

/-- C8: for every output state (a state reachable from the initial state) and
every argument tuple, after `gd_gl_area_scanout_texture` the mode is Scanout iff
the buffer handle is valid (backing id nonzero and the dimensions `w`, `h`
nonzero).  With a valid handle the guest framebuffer is non-empty and wraps
the given texture id with the given backing width and height; otherwise the
output is in Surface mode with an empty guest framebuffer.  The function is
total: it always returns a state and reports nothing to its caller. -/
theorem scanout_texture_mode (cfg : Bool) (s : State) (hr : Reachable cfg s)
    (backing_id : Nat) (top : Bool) (bw bh x y w h : Nat) :
    ((gd_gl_area_scanout_texture s backing_id top bw bh x y w h).1.scanout_mode = true ↔
      (backing_id ≠ 0 ∧ w ≠ 0 ∧ h ≠ 0)) ∧
    ((backing_id ≠ 0 ∧ w ≠ 0 ∧ h ≠ 0) →
      (gd_gl_area_scanout_texture s backing_id top bw bh x y w h).1.guest_fb.framebuffer ≠ 0 ∧
      (gd_gl_area_scanout_texture s backing_id top bw bh x y w h).1.guest_fb.texture = backing_id ∧
      (gd_gl_area_scanout_texture s backing_id top bw bh x y w h).1.guest_fb.width = bw ∧
      (gd_gl_area_scanout_texture s backing_id top bw bh x y w h).1.guest_fb.height = bh) ∧
    ((backing_id = 0 ∨ w = 0 ∨ h = 0) →
      (gd_gl_area_scanout_texture s backing_id top bw bh x y w h).1.scanout_mode = false ∧
      (gd_gl_area_scanout_texture s backing_id top bw bh x y w h).1.guest_fb.framebuffer = 0) := by
  obtain ⟨-, -, -, -, f5, f6, f7, -, -, -⟩ := scanout_texture_fields s backing_id top bw bh x y w h
  have hv : validHandle backing_id w h = true ↔ (backing_id ≠ 0 ∧ w ≠ 0 ∧ h ≠ 0) := by
    unfold validHandle
    simp [and_assoc]
  refine ⟨f5.trans hv, ?_, ?_⟩
  · intro hvalid
    obtain ⟨g1, g2, g3, g4⟩ := f6 (hv.2 hvalid)
    exact ⟨g4, g1, g2, g3⟩
  · intro hdeg
    have hnv : validHandle backing_id w h = false := by
      cases hc : validHandle backing_id w h
      · rfl
      · obtain ⟨h1, h2, h3⟩ := hv.1 hc
        rcases hdeg with h0 | h0 | h0
        · exact absurd h0 h1
        · exact absurd h0 h2
        · exact absurd h0 h3
    refine ⟨?_, f7 hnv (reachable_inv cfg s hr).1⟩
    cases hm : (gd_gl_area_scanout_texture s backing_id top bw bh x y w h).1.scanout_mode
    · rfl
    · rw [f5.1 hm] at hnv; cases hnv

/-- Witness for C8: a valid scanout request on the initial state. -/
theorem scanout_texture_mode_witness :
    (gd_gl_area_scanout_texture init 5 true 640 480 0 0 640 480).1.guest_fb.framebuffer ≠ 0 ∧
    (gd_gl_area_scanout_texture init 5 true 640 480 0 0 640 480).1.guest_fb.texture = 5 ∧
    (gd_gl_area_scanout_texture init 5 true 640 480 0 0 640 480).1.guest_fb.width = 640 ∧
    (gd_gl_area_scanout_texture init 5 true 640 480 0 0 640 480).1.guest_fb.height = 480 :=
  (scanout_texture_mode false init Reachable.init 5 true 640 480 0 0 640 480).2.1
    ⟨by decide, by decide, by decide⟩

/-! ## Refresh and the pending-update count -/

theorem callback_glupdates (cfg : Bool) (t : State) (c : Callback) :
    (c.run cfg t).1.glupdates =
      t.glupdates + (if c.isUpdate = true ∧ t.gls = true ∧ t.ds.isSome = true then 1 else 0) := by
  obtain ⟨-, -, -, -, f5, f6, -⟩ := callback_step cfg t c
  cases c with
  | update x y w h => rw [f5 x y w h rfl]; simp [Callback.isUpdate]
  | switch surface => rw [f6 (by intro _ _ _ _ hc; cases hc)]; simp [Callback.isUpdate]
  | scanout_texture id top bw bh x y w h =>
    rw [f6 (by intro _ _ _ _ hc; cases hc)]; simp [Callback.isUpdate]
  | scanout_disable => rw [f6 (by intro _ _ _ _ hc; cases hc)]; simp [Callback.isUpdate]
  | scanout_flush x y w h => rw [f6 (by intro _ _ _ _ hc; cases hc)]; simp [Callback.isUpdate]
  | scanout_dmabuf d => rw [f6 (by intro _ _ _ _ hc; cases hc)]; simp [Callback.isUpdate]

/-- C9: for every state reachable from the initial state, after
`gd_gl_area_refresh` returns the pending update count is `0`.  When the function
returns early (no renderer, widget not realized) nothing is pending, the
state is unchanged and no call is issued.  Otherwise, with `b` the state
after the guest-update hook: if the count observed there is positive, the
mode afterwards is Surface, the guest framebuffer is empty and exactly one
redraw is requested beyond those requested by the hook's own callbacks; if it
is zero, the state is the one left by the hook and no further redraw is
requested.  The count is incremented only by `gd_gl_area_update`, by exactly one,
and only when both the renderer state and a guest surface exist; every other
callback, the draw, the resize and the renderer initialisation leave it
unchanged, and the mode re-evaluation resets it. -/
theorem refresh_resets_pending (cfg : Bool) (s : State) (hr : Reachable cfg s)
    (realized : Bool) (hook : List Callback) :
    (gd_gl_area_refresh cfg s realized hook).1.glupdates = 0 ∧
    (gd_gl_area_refresh_init s realized = none →
      s.glupdates = 0 ∧ gd_gl_area_refresh cfg s realized hook = (s, [])) ∧
    (∀ a, gd_gl_area_refresh_init s realized = some a →
      (0 < (graphic_hw_update cfg hook a.1).1.glupdates →
        (gd_gl_area_refresh cfg s realized hook).1.scanout_mode = false ∧
        (gd_gl_area_refresh cfg s realized hook).1.guest_fb.framebuffer = 0 ∧
        (gd_gl_area_refresh cfg s realized hook).2.count Event.queue_render =
          (graphic_hw_update cfg hook a.1).2.count Event.queue_render + 1) ∧
      ((graphic_hw_update cfg hook a.1).1.glupdates = 0 →
        (gd_gl_area_refresh cfg s realized hook).1 = (graphic_hw_update cfg hook a.1).1 ∧
        (gd_gl_area_refresh cfg s realized hook).2 = a.2 ++ (graphic_hw_update cfg hook a.1).2 ∧
        (gd_gl_area_refresh cfg s realized hook).2.count Event.queue_render =
          (graphic_hw_update cfg hook a.1).2.count Event.queue_render)) ∧
    (∀ (t : State) (c : Callback), (c.run cfg t).1.glupdates =
      t.glupdates + (if c.isUpdate = true ∧ t.gls = true ∧ t.ds.isSome = true then 1 else 0)) ∧
    (∀ t : State, (gd_gl_area_draw t).1.glupdates = t.glupdates) ∧
    (∀ (t u : State) (w h wsf : Int), gd_gl_area_size_update t w h wsf = some u →
      u.glupdates = t.glupdates) ∧
    (∀ (t : State) (r : Bool) (a : State × List Event), gd_gl_area_refresh_init t r = some a →
      a.1.glupdates = t.glupdates) ∧
    (∀ t : State, (gd_gl_area_refresh_flush t).1.glupdates = 0) := by
  obtain ⟨hmode, hcount, -⟩ := reachable_inv cfg s hr
  refine ⟨(refresh_inv cfg s realized hook).2.2.1 hcount, ?_, ?_, callback_glupdates cfg, ?_,
    ?_, ?_, ?_⟩
  · intro hi
    obtain ⟨hg, -⟩ := refresh_init_none s realized hi
    refine ⟨hcount hg, ?_⟩
    unfold gd_gl_area_refresh
    rw [hi]
  · intro a hi
    obtain ⟨a1, a2, a3, a4, a5, -, a7⟩ := refresh_init_fields s realized a hi
    obtain ⟨b1, -, -, -, -⟩ := runCallbacks_inv cfg hook a.1
    have hinvA : ModeInv a.1 := by
      intro hm
      rw [a2]; rw [a1] at hm; exact hmode hm
    have hinvB : ModeInv (graphic_hw_update cfg hook a.1).1 := b1 hinvA
    obtain ⟨-, -, -, -, -, c6, c7, -⟩ := refresh_flush_fields (graphic_hw_update cfg hook a.1).1
    have hr2 : gd_gl_area_refresh cfg s realized hook =
        ((gd_gl_area_refresh_flush (graphic_hw_update cfg hook a.1).1).1,
         a.2 ++ (graphic_hw_update cfg hook a.1).2 ++
           (gd_gl_area_refresh_flush (graphic_hw_update cfg hook a.1).1).2) := by
      unfold gd_gl_area_refresh
      rw [hi]
    have ha0 : a.2.count Event.queue_render = 0 := List.count_eq_zero_of_not_mem a7
    constructor
    · intro hpos
      obtain ⟨d1, d2, d3⟩ := c6 hpos
      rw [hr2]
      refine ⟨d1, d2 hinvB, ?_⟩
      simp only [List.count_append, ha0, d3, Nat.zero_add]
    · intro hz
      rw [hr2, c7 hz]
      refine ⟨rfl, by simp, ?_⟩
      simp only [List.count_append, ha0, Nat.zero_add, List.append_nil]
  · intro t
    rw [draw_state t]
  · intro t u w h wsf hs
    exact (size_update_fields t u w h wsf hs).2.2.2.1
  · intro t r a hi
    exact (refresh_init_fields t r a hi).2.2.1
  · intro t
    exact (refresh_flush_fields t).1

/-- Witness for C9: a refresh of the initial state on a realized widget during
which the guest switches to a `640 x 480` surface and pushes one partial
update hands back a state with nothing pending. -/
theorem refresh_resets_pending_witness :
    (gd_gl_area_refresh false init true
      [Callback.switch (surfaceOf 1 640 480), Callback.update 0 0 640 480]).1.glupdates = 0 :=
  (refresh_resets_pending false init Reachable.init true
    [Callback.switch (surfaceOf 1 640 480), Callback.update 0 0 640 480]).1

/-! ## Mode/resource invariant -/

theorem draw_no_fb_create (s : State) (n : Nat) : Event.fb_create n ∉ (gd_gl_area_draw s).2 := by
  unfold gd_gl_area_draw
  by_cases hg : s.gls = true
  · by_cases hm : s.scanout_mode = true
    · by_cases hf : s.guest_fb.framebuffer = 0
      · simp [hg, hm, hf]
      · simp [hg, hm, hf]
    · cases hds : s.ds <;> simp [hg, hm, hds]
  · simp [hg]

/-- Leaving Scanout mode deletes a non-empty guest framebuffer. -/
theorem set_scanout_mode_false_destroys (s : State) (hm : s.scanout_mode = true)
    (hf : s.guest_fb.framebuffer ≠ 0) :
    Event.fb_destroy s.guest_fb.framebuffer ∈ (gtk_gl_area_set_scanout_mode s false).2 := by
  unfold gtk_gl_area_set_scanout_mode
  by_cases hs : s.surface = true
  · cases hd : s.ds <;>
      simp [hm, hs, hd, hf, egl_fb_destroy, surface_gl_destroy_texture,
        surface_gl_create_texture]
  · simp [hm, hs, hf, egl_fb_destroy]

/-- C10: the mode/resource invariant.  In every state reachable from the
initial state the guest framebuffer is non-empty only in Scanout mode.  A
framebuffer object is created only by a scanout-texture callback (direct or
through an imported external buffer) that ends in Scanout mode, never by a
draw or by the refresh's own code; every operation that leaves Scanout mode
leaves the guest framebuffer empty, and the transition out of Scanout mode
deletes a non-empty framebuffer. -/
theorem framebuffer_only_in_scanout (cfg : Bool) :
    (∀ s : State, Reachable cfg s → s.scanout_mode = false → s.guest_fb.framebuffer = 0) ∧
    (∀ (s : State) (c : Callback) (n : Nat), Event.fb_create n ∈ (c.run cfg s).2 →
      c.isScanoutTexture = true ∧ (c.run cfg s).1.scanout_mode = true) ∧
    (∀ (s : State) (n : Nat), Event.fb_create n ∉ (gd_gl_area_draw s).2) ∧
    (∀ (s : State) (r : Bool) (a : State × List Event) (n : Nat),
      gd_gl_area_refresh_init s r = some a → Event.fb_create n ∉ a.2) ∧
    (∀ (s : State) (n : Nat), Event.fb_create n ∉ (gd_gl_area_refresh_flush s).2) ∧
    (∀ (s : State) (op : Op), s.scanout_mode = true → (op.run cfg s).1.scanout_mode = false →
      (op.run cfg s).1.guest_fb.framebuffer = 0) ∧
    (∀ s : State, s.scanout_mode = true → s.guest_fb.framebuffer ≠ 0 →
      Event.fb_destroy s.guest_fb.framebuffer ∈ (gtk_gl_area_set_scanout_mode s false).2) := by
  refine ⟨?_, ?_, draw_no_fb_create, ?_, ?_, ?_, set_scanout_mode_false_destroys⟩
  · intro s hr
    exact (reachable_inv cfg s hr).1
  · intro s c n
    exact (callback_step cfg s c).2.2.2.2.2.2 n
  · intro s r a n hi
    exact (refresh_init_fields s r a hi).2.2.2.2.2.1 n
  · intro s n
    exact (refresh_flush_fields s).2.2.2.2.2.2.2 n
  · intro s op
    exact (op_step_inv cfg s op).2.2.2

/-- Witness for C10: after a scanout of a texture followed by a scanout
disable the output is in Surface mode and its guest framebuffer is empty. -/
theorem framebuffer_only_in_scanout_witness :
    (Op.run false
      (Op.run false init (Op.callback (Callback.scanout_texture 5 true 640 480 0 0 640 480))).1
      (Op.callback Callback.scanout_disable)).1.guest_fb.framebuffer = 0 :=
  (framebuffer_only_in_scanout false).1 _
    (Reachable.step _ (Op.callback Callback.scanout_disable)
      (Reachable.step _ (Op.callback (Callback.scanout_texture 5 true 640 480 0 0 640 480))
        Reachable.init))
    (by decide)

end GtkGlArea
